import Mathlib

/-!
Verification of the Luna venue-discovery backend (Luna-Backend).

Shallow embedding of the core state machine from:
  * `Luna-Backend/models.py`  — data models (User, Venue, Interest, Booking);
  * `Luna-Backend/agent.py`   — `booking_agent`, the pure booking decision;
  * `Luna-Backend/main.py`    — `express_interest` (toggle + booking
    create/cancel), `calculate_recommendation_score`, `get_recommendations`,
    `get_user_bookings`, `get_venue_booking` and helpers.

Conventions of the embedding:
  * Python dictionaries (`users_dict`, `venues_dict`) are association lists
    keyed by id, preserving insertion order as Python dicts do.
  * The module-level mutable globals `interests_list` and `bookings_list`
    are gathered into an explicit `ServerState` threaded through operations.
  * `datetime` values are opaque: `Nat` for interest timestamps, `String`
    for the iso-format `created_at` of bookings.
  * `random.randint(1000, 9999)` is modelled by a `rand : Nat` parameter,
    the drawn value.
  * Python `float` arithmetic in the scorer is modelled by exact rationals
    (`Rat`); every quantity involved is a small multiple of 1/3, far from
    rounding ties, so the arithmetic structure is preserved.
  * The booking collaborator called inside `try/except` is a parameter of
    type `Except Unit AgentResult`-valued function; `Except.error` models a
    raised exception, and `realAgent` instantiates it with `booking_agent`.
-/

/-- `models.py` `User`: id, name, avatar, bio, interests (tags). -/
structure User where
  id : String
  name : String
  avatar : String
  bio : String
  interests : List String
deriving Repr, DecidableEq

/-- `models.py` `Venue`: id, name, category, description, image, address. -/
structure Venue where
  id : String
  name : String
  category : String
  description : String
  image : String
  address : String
deriving Repr, DecidableEq

/-- `models.py` `Interest`: (user_id, venue_id, timestamp). -/
structure Interest where
  user_id : String
  venue_id : String
  timestamp : Nat
deriving Repr, DecidableEq

/-- `models.py` / `main.py` booking dict:
(id, venue_id, user_ids, reservation_code, created_at, status). -/
structure Booking where
  id : String
  venue_id : String
  user_ids : List String
  reservation_code : String
  created_at : String
  status : String
deriving Repr, DecidableEq

/-- The read-only reference directory: `users_dict` and `venues_dict` from
`data.py`, as insertion-ordered association lists keyed by id. -/
structure Env where
  users : List (String × User)
  venues : List (String × Venue)
deriving Repr

/-- The mutable module-level state of `main.py`: `interests_list` and
`bookings_list`. -/
structure ServerState where
  interests : List Interest
  bookings : List Booking
deriving Repr, DecidableEq

/-- `main.py` `InterestResponse` pydantic model. -/
structure InterestResponse where
  success : Bool
  agent_triggered : Bool
  message : String
  reservation_code : Option String
  booking_cancelled : Option Bool
deriving Repr, DecidableEq

/-- Result dictionary of `agent.py` `booking_agent`: one constructor per
return statement.  `notTriggered` is the bare `{"agent_triggered": False}`;
`bookingExists` the `action = "booking_exists"` dict; `created` the
`agent_triggered = True` dict. -/
inductive AgentResult where
  | notTriggered : AgentResult
  | bookingExists (venue_id message reservation_code : String) : AgentResult
  | created (venue_id booking_id message reservation_code : String)
      (user_ids : List String) (created_at : String) : AgentResult
deriving Repr, DecidableEq

/-- `agent.py` `booking_agent`.  `rand` is the value drawn by
`random.randint(1000, 9999)`; `agentNow` the `datetime.now().isoformat()`
string.  The `for`/`break` scan over `existing_bookings` is `List.find?`. -/
def booking_agent (venue_id venue_name : String) (user_count : Nat)
    (interested_user_ids : List String) (existing_bookings : List Booking)
    (rand : Nat) (agentNow : String) : AgentResult :=
  let threshold := 3
  if user_count < threshold then
    AgentResult.notTriggered
  else
    match existing_bookings.find?
        (fun b => b.venue_id == venue_id && b.status == "active") with
    | some b =>
        AgentResult.bookingExists venue_id
          ("Active booking already exists for " ++ venue_name)
          b.reservation_code
    | none =>
        let reservation_code := "LUNA-" ++ venue_id ++ "-" ++ toString rand
        let booking_id := "booking_" ++ toString (existing_bookings.length + 1)
        AgentResult.created venue_id booking_id
          ("Mock booking agent: Reserved table for " ++ toString user_count
            ++ " at " ++ venue_name)
          reservation_code interested_user_ids agentNow

/-- The type of the booking collaborator as seen from `express_interest`:
called with (venue_id, venue_name, interested_count, interested_user_ids,
bookings_list); `Except.error ()` models a raised exception caught by the
`try/except` block. -/
abbrev AgentFun : Type :=
  String → String → Nat → List String → List Booking → Except Unit AgentResult

/-- The real collaborator: `booking_agent` with its random draw and clock
fixed, never raising. -/
def realAgent (rand : Nat) (agentNow : String) : AgentFun :=
  fun venue_id venue_name user_count interested_user_ids existing_bookings =>
    Except.ok (booking_agent venue_id venue_name user_count
      interested_user_ids existing_bookings rand agentNow)

/-- A collaborator that always raises, for exercising the `except` path. -/
def failingAgent : AgentFun :=
  fun _ _ _ _ _ => Except.error ()

/-- `main.py` `get_interested_count`: number of interests recorded for a
venue. -/
def get_interested_count (interests : List Interest) (venue_id : String) : Nat :=
  interests.countP (fun interest => interest.venue_id == venue_id)

/-- `main.py` `count_friends_interested`: number of interests in the venue
held by users other than `user_id`. -/
def count_friends_interested (interests : List Interest)
    (user_id venue_id : String) : Nat :=
  interests.countP
    (fun interest => interest.venue_id == venue_id && interest.user_id != user_id)

/-- In-place cancellation of the first active booking for a venue, as done
by `active_booking["status"] = "cancelled"` on the dict found by the scan in
`express_interest`. -/
def cancelFirstActive (bookings : List Booking) (venue_id : String) :
    List Booking :=
  match bookings with
  | [] => []
  | b :: rest =>
      if b.venue_id == venue_id && b.status == "active" then
        { b with status := "cancelled" } :: rest
      else
        b :: cancelFirstActive rest venue_id

/-- Result of `POST /interests`: a 404 or a response together with the new
server state. -/
inductive ToggleResult where
  | notFound (detail : String) : ToggleResult
  | ok (resp : InterestResponse) (st : ServerState) : ToggleResult
deriving Repr, DecidableEq

/-- `main.py` `express_interest` (`POST /interests`).  `now` is the
`datetime.now()` timestamp for the new interest.  The index scan plus
`interests_list.pop(existing_interest)` removes the first matching
interest (`List.eraseP`); the booking scan is `List.find?`. -/
def express_interest (env : Env) (agent : AgentFun) (st : ServerState)
    (user_id venue_id : String) (now : Nat) : ToggleResult :=
  if (env.users.lookup user_id).isNone then
    ToggleResult.notFound ("User with id " ++ user_id ++ " not found")
  else
    match env.venues.lookup venue_id with
    | none => ToggleResult.notFound ("Venue with id " ++ venue_id ++ " not found")
    | some venue =>
      match st.interests.find?
          (fun i => i.user_id == user_id && i.venue_id == venue_id) with
      | some _ =>
          -- Remove interest (toggle off)
          let interests' := st.interests.eraseP
            (fun i => i.user_id == user_id && i.venue_id == venue_id)
          let interested_count := get_interested_count interests' venue_id
          let active_booking := st.bookings.find?
            (fun b => b.venue_id == venue_id && b.status == "active")
          if active_booking.isSome && interested_count < 3 then
            ToggleResult.ok
              { success := true, agent_triggered := false,
                message := "Interest removed. Booking cancelled due to insufficient interest.",
                reservation_code := none, booking_cancelled := some true }
              { interests := interests',
                bookings := cancelFirstActive st.bookings venue_id }
          else
            ToggleResult.ok
              { success := true, agent_triggered := false,
                message := "Interest removed for " ++ venue.name,
                reservation_code := none, booking_cancelled := some false }
              { interests := interests', bookings := st.bookings }
      | none =>
          -- Add interest (toggle on)
          let interests' := st.interests ++
            [{ user_id := user_id, venue_id := venue_id, timestamp := now }]
          let interested_user_ids :=
            (interests'.filter (fun i => i.venue_id == venue_id)).map
              (fun i => i.user_id)
          let interested_count := interested_user_ids.length
          let venue_name := venue.name
          match agent venue_id venue_name interested_count interested_user_ids
              st.bookings with
          | Except.ok agent_response =>
            match agent_response with
            | AgentResult.created _ booking_id msg code user_ids created_at =>
                let booking : Booking :=
                  { id := booking_id, venue_id := venue_id,
                    user_ids := user_ids, reservation_code := code,
                    created_at := created_at, status := "active" }
                ToggleResult.ok
                  { success := true, agent_triggered := true, message := msg,
                    reservation_code := some code, booking_cancelled := some false }
                  { interests := interests', bookings := st.bookings ++ [booking] }
            | AgentResult.bookingExists _ msg code =>
                ToggleResult.ok
                  { success := true, agent_triggered := false,
                    message := "Interest recorded. " ++ msg,
                    reservation_code := some code, booking_cancelled := some false }
                  { interests := interests', bookings := st.bookings }
            | AgentResult.notTriggered =>
                ToggleResult.ok
                  { success := true, agent_triggered := false,
                    message := "Interest recorded successfully",
                    reservation_code := none, booking_cancelled := some false }
                  { interests := interests', bookings := st.bookings }
          | Except.error _ =>
              -- Booking agent raised: interest stays recorded
              ToggleResult.ok
                { success := true, agent_triggered := false,
                  message := "Interest recorded successfully",
                  reservation_code := none, booking_cancelled := some false }
                { interests := interests', bookings := st.bookings }

/-- Python `str.lower()`, character by character. -/
def lowerStr (s : String) : String :=
  ⟨s.data.map Char.toLower⟩

/-- `needle` starts `hay` (character-list view). -/
def charsLead (needle hay : List Char) : Bool :=
  match needle, hay with
  | [], _ => true
  | _ :: _, [] => false
  | a :: ns, b :: hs => a == b && charsLead ns hs

/-- `needle` occurs contiguously inside `hay` (character-list view). -/
def charsContain (needle hay : List Char) : Bool :=
  charsLead needle hay ||
    match hay with
    | [] => false
    | _ :: hs => charsContain needle hs

/-- Python's `needle in hay` on strings: substring containment. -/
def strIn (needle hay : String) : Bool :=
  charsContain needle.toList hay.toList

/-- The category-match loop of `calculate_recommendation_score`: Python's
`interest.lower() in venue_category_lower or venue_category_lower in
interest.lower()`, with `break` after the first hit (`List.any`). -/
def categoryMatches (user : User) (venue : Venue) : Bool :=
  let venue_category_lower := lowerStr venue.category
  user.interests.any (fun interest =>
    strIn (lowerStr interest) venue_category_lower ||
      strIn venue_category_lower (lowerStr interest))

/-- `main.py` `calculate_recommendation_score`.  Returns
(score, reason, friends_interested, total_interested); Python float
arithmetic is modelled exactly over `Rat`. -/
def calculate_recommendation_score (env : Env) (interests : List Interest)
    (user_id venue_id : String) : Rat × String × Nat × Nat :=
  match env.users.lookup user_id, env.venues.lookup venue_id with
  | some user, some venue =>
      let total_interested_count := get_interested_count interests venue_id
      let other_users_interested := interests.countP
        (fun interest => interest.venue_id == venue_id
          && interest.user_id != user_id)
      let friends_interested := count_friends_interested interests user_id venue_id
      -- Factor 1: popularity, based on OTHER users only
      let popularity_score : Rat := min ((other_users_interested : Rat) / 3) 3
      -- Factor 2: category match
      let matched := categoryMatches user venue
      -- Factor 3: friend interest
      let friend_score : Nat := min friends_interested 3
      let score : Rat := popularity_score + (if matched then 4 else 0)
        + (friend_score : Rat)
      let reasons : List String :=
        (if other_users_interested > 0 then ["Popular venue"] else []) ++
        (if matched then ["Matches your interests"] else []) ++
        (if friends_interested > 0 then
          [toString friends_interested ++ " friend"
            ++ (if friends_interested > 1 then "s" else "") ++ " interested"]
         else [])
      let reason :=
        if reasons.isEmpty then "New venue to explore"
        else String.intercalate ", " reasons
      (score, reason, friends_interested, total_interested_count)
  | _, _ => (0, "Invalid user or venue", 0, 0)

/-- Python `round(score, 1)`.  The possible scores are multiples of 1/3, so
they never sit at a rounding tie and exact rational rounding agrees with
the float rounding performed by the code. -/
def round1 (q : Rat) : Rat :=
  ((round (q * 10) : Int) : Rat) / 10

/-- One entry of the `GET /recommendations` response. -/
structure Recommendation where
  venue : Venue
  interested_count : Nat
  score : Rat
  reason : String
  already_interested : Bool
  friends_interested : Nat
  total_interested : Nat
deriving Repr, DecidableEq

/-- The unsorted recommendation list of `get_recommendations`, built by the
`for venue_id, venue in venues_dict.items()` loop in dictionary insertion
order. -/
def recEntries (env : Env) (interests : List Interest) (user_id : String) :
    List Recommendation :=
  env.venues.map (fun p =>
    let r := calculate_recommendation_score env interests user_id p.1
    let already_interested := interests.any
      (fun interest => interest.user_id == user_id && interest.venue_id == p.1)
    { venue := p.2, interested_count := r.2.2.2, score := round1 r.1,
      reason := r.2.1, already_interested := already_interested,
      friends_interested := r.2.2.1, total_interested := r.2.2.2 })

/-- Stable insertion of `a` into `l`: `a` is placed before the first
element `b` with `le a b`; with `le` = "key not larger", elements with
equal keys keep their original relative order. -/
def ordIns {α : Type} (le : α → α → Bool) (a : α) : List α → List α
  | [] => [a]
  | b :: l => if le a b then a :: b :: l else b :: ordIns le a l

/-- Stable insertion sort.  Python's `list.sort` (timsort) is a stable sort
by the given key, and stable sorting by a total preorder is unique as a
function, so this is the same function the code computes. -/
def insSort {α : Type} (le : α → α → Bool) : List α → List α
  | [] => []
  | a :: l => ordIns le a (insSort le l)

/-- The comparison realized by `recommendations.sort(key=lambda x:
-x["score"])`: ascending in `-score`, i.e. descending in score. -/
def scoreLe (a b : Recommendation) : Bool :=
  decide (b.score ≤ a.score)

/-- `main.py` `get_recommendations` (`GET /recommendations`): `none` models
the 404 for an unknown user. -/
def get_recommendations (env : Env) (interests : List Interest)
    (user_id : String) : Option (List Recommendation) :=
  if (env.users.lookup user_id).isNone then none
  else some (insSort scoreLe (recEntries env interests user_id))

/-- Result of `GET /venues/{venue_id}/booking`. -/
inductive VenueBookingResult where
  | notFound : VenueBookingResult
  | noBooking : VenueBookingResult
  | hasBooking (id reservation_code created_at : String)
      (party_size : Nat) : VenueBookingResult
deriving Repr, DecidableEq

/-- `main.py` `get_venue_booking`: the first active booking for the venue,
if any. -/
def get_venue_booking (env : Env) (st : ServerState) (venue_id : String) :
    VenueBookingResult :=
  if (env.venues.lookup venue_id).isNone then
    VenueBookingResult.notFound
  else
    match st.bookings.find?
        (fun b => b.venue_id == venue_id && b.status == "active") with
    | some booking =>
        VenueBookingResult.hasBooking booking.id booking.reservation_code
          booking.created_at booking.user_ids.length
    | none => VenueBookingResult.noBooking

/-- One entry of the `GET /bookings/{user_id}` response. -/
structure UserBookingEntry where
  id : String
  venue : Venue
  reservation_code : String
  created_at : String
  party_size : Nat
deriving Repr, DecidableEq

/-- `main.py` `get_user_bookings` (`GET /bookings/{user_id}`): active
bookings containing the user, with venue details resolved; `none` models
the 404 for an unknown user. -/
def get_user_bookings (env : Env) (st : ServerState) (user_id : String) :
    Option (List UserBookingEntry) :=
  if (env.users.lookup user_id).isNone then none
  else some (st.bookings.filterMap (fun booking =>
    if booking.status == "active" && booking.user_ids.contains user_id then
      (env.venues.lookup booking.venue_id).map (fun venue =>
        { id := booking.id, venue := venue,
          reservation_code := booking.reservation_code,
          created_at := booking.created_at,
          party_size := booking.user_ids.length })
    else none))

/-- One `POST /interests` request together with the environment-provided
nondeterminism (clock reading and random draw) of that call. -/
structure ToggleOp where
  user_id : String
  venue_id : String
  now : Nat
  rand : Nat
  agentNow : String
deriving Repr, DecidableEq

/-- Apply one toggle with the real booking agent; a 404 leaves the state
unchanged. -/
def applyToggle (env : Env) (st : ServerState) (op : ToggleOp) : ServerState :=
  match express_interest env (realAgent op.rand op.agentNow) st
      op.user_id op.venue_id op.now with
  | ToggleResult.ok _ st' => st'
  | ToggleResult.notFound _ => st

/-- Run a sequence of toggles from a state. -/
def runToggles (env : Env) (st : ServerState) (ops : List ToggleOp) :
    ServerState :=
  ops.foldl (applyToggle env) st

/-- Number of bookings with status "active" for a venue. -/
def activeBookingCount (bookings : List Booking) (venue_id : String) : Nat :=
  bookings.countP (fun b => b.venue_id == venue_id && b.status == "active")

/-- The Booking Registry invariant: at most one active booking per venue. -/
def atMostOneActive (st : ServerState) : Prop :=
  ∀ v : String, activeBookingCount st.bookings v ≤ 1

/-- Whether the ledger holds an interest for the (user, venue) pair. -/
def hasInterest (st : ServerState) (user_id venue_id : String) : Bool :=
  st.interests.any (fun i => i.user_id == user_id && i.venue_id == venue_id)

/-- The category-match factor as the spec sentence for claim C6 words it:
4 exactly when some declared tag of the user occurs, case-insensitively, as
a substring of the venue's category (one direction only). -/
def spec_category_match (user : User) (venue : Venue) : Rat :=
  if user.interests.any (fun tag => strIn (lowerStr tag) (lowerStr venue.category))
  then 4 else 0

/-- The whole score as the C6 sentence words it, for comparison with
`calculate_recommendation_score`. -/
def spec_score (env : Env) (interests : List Interest)
    (user_id venue_id : String) : Rat :=
  match env.users.lookup user_id, env.venues.lookup venue_id with
  | some user, some venue =>
      let c := interests.countP
        (fun interest => interest.venue_id == venue_id
          && interest.user_id != user_id)
      min ((c : Rat) / 3) 3 + spec_category_match user venue + (min c 3 : Nat)
  | _, _ => 0

/-- Concrete fixtures for witnesses: a user whose tag "coffeehouse"
case-insensitively contains the category "coffee" but not conversely. -/
def uW1 : User := ⟨"u1", "Alice", "a.png", "bio", ["coffeehouse"]⟩

/-- Concrete fixture user. -/
def uW2 : User := ⟨"u2", "Bo", "b.png", "bio", []⟩

/-- Concrete fixture user. -/
def uW3 : User := ⟨"u3", "Cam", "c.png", "bio", []⟩

/-- Concrete fixture user. -/
def uW4 : User := ⟨"u4", "Dee", "d.png", "bio", []⟩

/-- Concrete fixture venue with category "coffee". -/
def vW1 : Venue := ⟨"v1", "Cafe X", "coffee", "desc", "v.png", "1 Way"⟩

/-- Concrete fixture directory. -/
def envW : Env :=
  ⟨[("u1", uW1), ("u2", uW2), ("u3", uW3), ("u4", uW4)], [("v1", vW1)]⟩

/-- Concrete fixture venue with category "cocktail bar". -/
def vW2 : Venue := ⟨"v2", "Bar Y", "cocktail bar", "desc", "v2.png", "2 Way"⟩

/-- Concrete fixture directory with two venues. -/
def envW2 : Env :=
  ⟨[("u1", uW1), ("u2", uW2), ("u3", uW3), ("u4", uW4)],
   [("v1", vW1), ("v2", vW2)]⟩

/-- Empty initial state: no interests, no bookings. -/
def stW0 : ServerState := ⟨[], []⟩

/-- A state with two interests in venue v1 and no bookings. -/
def stW2 : ServerState := ⟨[⟨"u1", "v1", 0⟩, ⟨"u2", "v1", 1⟩], []⟩

/-- Field-level frame relation between a booking record before and after
an operation: every field except status is preserved, and status changes
only from "active" to "cancelled". -/
def frameR (old new : Booking) : Prop :=
  new.id = old.id ∧ new.venue_id = old.venue_id ∧
  new.user_ids = old.user_ids ∧
  new.reservation_code = old.reservation_code ∧
  new.created_at = old.created_at ∧
  (new.status = old.status ∨
    (old.status = "active" ∧ new.status = "cancelled"))

/-! ## Lemmas and claim theorems -/

lemma booking_agent_created_inv {v name : String} {n : Nat} {uids : List String}
    {bs : List Booking} {rand : Nat} {anow : String}
    {a bid msg code : String} {us : List String} {cat : String}
    (h : booking_agent v name n uids bs rand anow =
      AgentResult.created a bid msg code us cat) :
    3 ≤ n ∧
    bs.find? (fun b => b.venue_id == v && b.status == "active") = none ∧
    a = v ∧ bid = "booking_" ++ toString (bs.length + 1) ∧
    code = "LUNA-" ++ v ++ "-" ++ toString rand ∧ us = uids ∧ cat = anow := by
  unfold booking_agent at h
  by_cases hn : n < 3
  · simp [hn] at h
  · simp [hn] at h
    cases hfind : bs.find? (fun b => b.venue_id == v && b.status == "active") with
    | some b => rw [hfind] at h; simp at h
    | none =>
        rw [hfind] at h
        simp [AgentResult.created.injEq] at h
        obtain ⟨h1, h2, _, h4, h5, h6⟩ := h
        exact ⟨by omega, rfl, h1.symm, h2.symm, h4.symm, h5.symm, h6.symm⟩

/-- C3: `booking_agent` is a pure decision function: below the threshold 3
it returns no action; at or above the threshold it reports an existing
active booking for the venue (the first one, carrying its reservation
code) when there is one, and otherwise signals creation with a freshly
minted reservation code and booking id.  (Purity — that the booking list
is never mutated — is intrinsic: the embedded function only reads its
arguments.) -/
theorem booking_agent_decision (venue_id venue_name : String) (n : Nat)
    (uids : List String) (bs : List Booking) (rand : Nat) (anow : String) :
    (n < 3 →
      booking_agent venue_id venue_name n uids bs rand anow =
        AgentResult.notTriggered) ∧
    (3 ≤ n → (∃ b ∈ bs, b.venue_id = venue_id ∧ b.status = "active") →
      ∃ b ∈ bs, b.venue_id = venue_id ∧ b.status = "active" ∧
        booking_agent venue_id venue_name n uids bs rand anow =
          AgentResult.bookingExists venue_id
            ("Active booking already exists for " ++ venue_name)
            b.reservation_code) ∧
    (3 ≤ n → (∀ b ∈ bs, ¬(b.venue_id = venue_id ∧ b.status = "active")) →
      booking_agent venue_id venue_name n uids bs rand anow =
        AgentResult.created venue_id ("booking_" ++ toString (bs.length + 1))
          ("Mock booking agent: Reserved table for " ++ toString n ++ " at "
            ++ venue_name)
          ("LUNA-" ++ venue_id ++ "-" ++ toString rand) uids anow) := by
  refine ⟨fun hn => ?_, fun hn hex => ?_, fun hn hall => ?_⟩
  · unfold booking_agent
    simp [hn]
  · obtain ⟨b, hb, hbv, hbs⟩ := hex
    have hsome : (bs.find? (fun b => b.venue_id == venue_id
        && b.status == "active")).isSome := by
      rw [List.find?_isSome]
      exact ⟨b, hb, by simp [hbv, hbs]⟩
    obtain ⟨b0, hfind⟩ := Option.isSome_iff_exists.mp hsome
    have hp := List.find?_some hfind
    simp only [Bool.and_eq_true, beq_iff_eq] at hp
    refine ⟨b0, List.mem_of_find?_eq_some hfind, hp.1, hp.2, ?_⟩
    unfold booking_agent
    simp only [Nat.not_lt.mpr hn, if_false, hfind]
  · have hnone : bs.find? (fun b => b.venue_id == venue_id
        && b.status == "active") = none := by
      rw [List.find?_eq_none]
      intro x hx hpx
      simp only [Bool.and_eq_true, beq_iff_eq] at hpx
      exact hall x hx hpx
    unfold booking_agent
    simp only [Nat.not_lt.mpr hn, if_false, hnone]

/-- Witness for C3 at concrete inputs. -/
theorem booking_agent_decision_witness :
    (2 < 3 ∧
      booking_agent "v1" "Cafe X" 2 ["u1", "u2"] [] 1234 "t" =
        AgentResult.notTriggered) ∧
    (3 ≤ 3 ∧ (∀ b ∈ ([] : List Booking),
        ¬(b.venue_id = "v1" ∧ b.status = "active")) ∧
      booking_agent "v1" "Cafe X" 3 ["u1", "u2", "u3"] [] 1234 "t" =
        AgentResult.created "v1" "booking_1"
          "Mock booking agent: Reserved table for 3 at Cafe X"
          "LUNA-v1-1234" ["u1", "u2", "u3"] "t") := by
  refine ⟨⟨by decide, ?_⟩, ⟨by decide, by simp, ?_⟩⟩
  · exact (booking_agent_decision "v1" "Cafe X" 2 ["u1", "u2"] [] 1234 "t").1
      (by decide)
  · exact (booking_agent_decision "v1" "Cafe X" 3 ["u1", "u2", "u3"] []
      1234 "t").2.2 (by decide) (by simp)

/-- C8: if the booking collaborator raises during a toggle-on, the call
still succeeds with the `InterestRecorded` outcome: the freshly added
Interest stays in the ledger, the Booking Registry is unchanged, and no
error is surfaced to the caller. -/
theorem collaborator_fault_recovery (env : Env) (ag : AgentFun)
    (st : ServerState) (u v : String) (now : Nat) (user : User) (venue : Venue)
    (hu : env.users.lookup u = some user)
    (hv : env.venues.lookup v = some venue)
    (hno : st.interests.find?
      (fun i => i.user_id == u && i.venue_id == v) = none)
    (hfail : ag v venue.name
      ((((st.interests ++ [(⟨u, v, now⟩ : Interest)]).filter
          (fun i => i.venue_id == v)).map (fun i => i.user_id)).length)
      (((st.interests ++ [(⟨u, v, now⟩ : Interest)]).filter
          (fun i => i.venue_id == v)).map (fun i => i.user_id))
      st.bookings = Except.error ()) :
    express_interest env ag st u v now =
      ToggleResult.ok
        ⟨true, false, "Interest recorded successfully", none, some false⟩
        ⟨st.interests ++ [⟨u, v, now⟩], st.bookings⟩ := by
  unfold express_interest
  rw [hu, hv]
  simp only [Option.isNone_some, Bool.false_eq_true, if_false, hno]
  rw [hfail]

/-- Witness for C8 at concrete inputs, with the always-raising
collaborator. -/
theorem collaborator_fault_recovery_witness :
    envW.users.lookup "u1" = some uW1 ∧
    envW.venues.lookup "v1" = some vW1 ∧
    stW0.interests.find?
      (fun i => i.user_id == "u1" && i.venue_id == "v1") = none ∧
    express_interest envW failingAgent stW0 "u1" "v1" 7 =
      ToggleResult.ok
        ⟨true, false, "Interest recorded successfully", none, some false⟩
        ⟨stW0.interests ++ [⟨"u1", "v1", 7⟩], stW0.bookings⟩ := by
  refine ⟨by decide, by decide, by decide, ?_⟩
  exact collaborator_fault_recovery envW failingAgent stW0 "u1" "v1" 7 uW1 vW1
    (by decide) (by decide) (by decide) rfl

/-- C6 counterexample: with the declared tag "coffeehouse" and venue
category "coffee", the code awards the category-match factor 4 (the
category is a substring of the tag), while the claimed one-directional
formula — tag occurs as a substring of the category — gives 0, so the
claimed formula disagrees with the code at this input. -/
theorem score_category_direction_counterexample :
    (calculate_recommendation_score envW [] "u1" "v1").1 ≠
      spec_score envW [] "u1" "v1" := by
  have hu : envW.users.lookup "u1" = some uW1 := rfl
  have hv : envW.venues.lookup "v1" = some vW1 := rfl
  have hmatch : categoryMatches uW1 vW1 = true := by decide
  have hone : (uW1.interests.any fun tag =>
      strIn (lowerStr tag) (lowerStr vW1.category)) = false := by decide
  have h1 : (calculate_recommendation_score envW [] "u1" "v1").1 = 4 := by
    simp [calculate_recommendation_score, hu, hv, hmatch,
      count_friends_interested]
  have h2 : spec_score envW [] "u1" "v1" = 0 := by
    simp [spec_score, hu, hv, spec_category_match, hone]
  rw [h1, h2]
  norm_num

/-- C6 (amended): the score equals popularity + category_match +
friend_bonus where, with c the count of other users' interests in the
venue, popularity = min(c/3, 3), friend_bonus = min(c, 3), and
category_match = 4 exactly when some declared tag of the user
case-insensitively occurs as a substring of the venue's category **or the
category occurs as a substring of the tag**; consequently the score never
exceeds 10. -/
theorem score_formula_bidirectional (env : Env) (interests : List Interest)
    (u v : String) (user : User) (venue : Venue)
    (hu : env.users.lookup u = some user)
    (hv : env.venues.lookup v = some venue) :
    (calculate_recommendation_score env interests u v).1 =
      min (((interests.countP
          (fun i => i.venue_id == v && i.user_id != u)) : Rat) / 3) 3
        + (if user.interests.any (fun tag =>
              strIn (lowerStr tag) (lowerStr venue.category)
                || strIn (lowerStr venue.category) (lowerStr tag))
           then 4 else 0)
        + ((min (interests.countP
            (fun i => i.venue_id == v && i.user_id != u)) 3 : Nat) : Rat)
    ∧ (calculate_recommendation_score env interests u v).1 ≤ 10 := by
  have heq : (calculate_recommendation_score env interests u v).1 =
      min (((interests.countP
          (fun i => i.venue_id == v && i.user_id != u)) : Rat) / 3) 3
        + (if user.interests.any (fun tag =>
              strIn (lowerStr tag) (lowerStr venue.category)
                || strIn (lowerStr venue.category) (lowerStr tag))
           then 4 else 0)
        + ((min (interests.countP
            (fun i => i.venue_id == v && i.user_id != u)) 3 : Nat) : Rat) := by
    simp [calculate_recommendation_score, hu, hv, categoryMatches,
      count_friends_interested]
  refine ⟨heq, ?_⟩
  rw [heq]
  have h1 : min (((interests.countP
      (fun i => i.venue_id == v && i.user_id != u)) : Rat) / 3) 3 ≤ 3 :=
    min_le_right _ _
  have h2 : (if user.interests.any (fun tag =>
        strIn (lowerStr tag) (lowerStr venue.category)
          || strIn (lowerStr venue.category) (lowerStr tag))
      then (4 : Rat) else 0) ≤ 4 := by
    split <;> norm_num
  have h3 : ((min (interests.countP
      (fun i => i.venue_id == v && i.user_id != u)) 3 : Nat) : Rat) ≤ 3 := by
    have := Nat.min_le_right (interests.countP
      (fun i => i.venue_id == v && i.user_id != u)) 3
    exact_mod_cast Nat.cast_le.mpr this
  linarith

/-- Witness for the amended C6 at concrete inputs. -/
theorem score_formula_bidirectional_witness :
    envW.users.lookup "u1" = some uW1 ∧
    envW.venues.lookup "v1" = some vW1 ∧
    (calculate_recommendation_score envW [] "u1" "v1").1 ≤ 10 :=
  ⟨rfl, rfl, (score_formula_bidirectional envW [] "u1" "v1" uW1 vW1 rfl rfl).2⟩

lemma express_on_eq (env : Env) (ag : AgentFun) (st : ServerState)
    (u v : String) (now : Nat) (user : User) (venue : Venue)
    (hu : env.users.lookup u = some user)
    (hv : env.venues.lookup v = some venue)
    (hno : st.interests.find?
      (fun i => i.user_id == u && i.venue_id == v) = none) :
    express_interest env ag st u v now =
      match ag v venue.name
          ((((st.interests ++ [(⟨u, v, now⟩ : Interest)]).filter
              (fun i => i.venue_id == v)).map (fun i => i.user_id)).length)
          (((st.interests ++ [(⟨u, v, now⟩ : Interest)]).filter
              (fun i => i.venue_id == v)).map (fun i => i.user_id))
          st.bookings with
      | Except.ok (AgentResult.created _ bid msg code us cat) =>
          ToggleResult.ok ⟨true, true, msg, some code, some false⟩
            ⟨st.interests ++ [⟨u, v, now⟩],
             st.bookings ++ [⟨bid, v, us, code, cat, "active"⟩]⟩
      | Except.ok (AgentResult.bookingExists _ msg code) =>
          ToggleResult.ok
            ⟨true, false, "Interest recorded. " ++ msg, some code, some false⟩
            ⟨st.interests ++ [⟨u, v, now⟩], st.bookings⟩
      | Except.ok AgentResult.notTriggered =>
          ToggleResult.ok
            ⟨true, false, "Interest recorded successfully", none, some false⟩
            ⟨st.interests ++ [⟨u, v, now⟩], st.bookings⟩
      | Except.error _ =>
          ToggleResult.ok
            ⟨true, false, "Interest recorded successfully", none, some false⟩
            ⟨st.interests ++ [⟨u, v, now⟩], st.bookings⟩ := by
  unfold express_interest
  rw [hu, hv]
  simp only [Option.isNone_some, Bool.false_eq_true, if_false, hno]
  split
  · rename_i ar heq
    cases ar <;> rw [heq]
  · rename_i e heq
    rw [heq]

lemma express_off_eq (env : Env) (ag : AgentFun) (st : ServerState)
    (u v : String) (now : Nat) (user : User) (venue : Venue) (i0 : Interest)
    (hu : env.users.lookup u = some user)
    (hv : env.venues.lookup v = some venue)
    (hyes : st.interests.find?
      (fun i => i.user_id == u && i.venue_id == v) = some i0) :
    express_interest env ag st u v now =
      if (st.bookings.find?
            (fun b => b.venue_id == v && b.status == "active")).isSome
          && get_interested_count
            (st.interests.eraseP
              (fun i => i.user_id == u && i.venue_id == v)) v < 3 then
        ToggleResult.ok
          ⟨true, false,
           "Interest removed. Booking cancelled due to insufficient interest.",
           none, some true⟩
          ⟨st.interests.eraseP (fun i => i.user_id == u && i.venue_id == v),
           cancelFirstActive st.bookings v⟩
      else
        ToggleResult.ok
          ⟨true, false, "Interest removed for " ++ venue.name,
           none, some false⟩
          ⟨st.interests.eraseP (fun i => i.user_id == u && i.venue_id == v),
           st.bookings⟩ := by
  unfold express_interest
  rw [hu, hv]
  simp only [Option.isNone_some, Bool.false_eq_true, if_false, hyes]

lemma express_ok_interests {env : Env} {ag : AgentFun} {st : ServerState}
    {u v : String} {now : Nat} {r : InterestResponse} {st' : ServerState}
    (h : express_interest env ag st u v now = ToggleResult.ok r st') :
    (st.interests.find? (fun i => i.user_id == u && i.venue_id == v) = none ∧
      st'.interests = st.interests ++ [⟨u, v, now⟩]) ∨
    ((∃ i0, st.interests.find?
        (fun i => i.user_id == u && i.venue_id == v) = some i0) ∧
      st'.interests = st.interests.eraseP
        (fun i => i.user_id == u && i.venue_id == v)) := by
  cases hu0 : env.users.lookup u with
  | none =>
      unfold express_interest at h
      rw [hu0] at h
      simp at h
  | some user =>
    cases hv0 : env.venues.lookup v with
    | none =>
        unfold express_interest at h
        rw [hu0, hv0] at h
        simp at h
    | some venue =>
      cases hf : st.interests.find?
          (fun i => i.user_id == u && i.venue_id == v) with
      | none =>
          left
          refine ⟨rfl, ?_⟩
          rw [express_on_eq env ag st u v now user venue hu0 hv0 hf] at h
          split at h <;>
            (simp only [ToggleResult.ok.injEq] at h; rw [← h.2])
      | some i0 =>
          right
          refine ⟨⟨i0, rfl⟩, ?_⟩
          rw [express_off_eq env ag st u v now user venue i0 hu0 hv0 hf] at h
          split at h <;>
            (simp only [ToggleResult.ok.injEq] at h; rw [← h.2])

lemma filter_eraseP_of_imp {α : Type} (p q : α → Bool)
    (h : ∀ a, p a = true → q a = false) :
    ∀ l : List α, (l.eraseP p).filter q = l.filter q := by
  intro l
  induction l with
  | nil => rfl
  | cons a t ih =>
      by_cases hp : p a
      · rw [List.eraseP_cons_of_pos hp, List.filter_cons, h a hp]
        simp
      · rw [List.eraseP_cons_of_neg hp, List.filter_cons, List.filter_cons, ih]

lemma score_other_users_only (env : Env) (u v : String)
    (I1 I2 : List Interest)
    (hfilter : I1.filter (fun i => i.user_id != u) =
      I2.filter (fun i => i.user_id != u)) :
    (calculate_recommendation_score env I1 u v).1 =
      (calculate_recommendation_score env I2 u v).1 := by
  have hc : I1.countP (fun i => i.venue_id == v && i.user_id != u) =
      I2.countP (fun i => i.venue_id == v && i.user_id != u) := by
    have := congrArg (List.countP (fun i : Interest => i.venue_id == v)) hfilter
    rwa [List.countP_filter, List.countP_filter] at this
  cases hu0 : env.users.lookup u with
  | none => simp [calculate_recommendation_score, hu0]
  | some user =>
    cases hv0 : env.venues.lookup v with
    | none => simp [calculate_recommendation_score, hu0, hv0]
    | some venue =>
        simp only [calculate_recommendation_score, hu0, hv0,
          count_friends_interested]
        rw [hc]

/-- C4: the score returned by the Recommendation Scorer depends only on
Interest facts of users other than the viewing user: any two interest
ledgers agreeing on all other users' interests give the same score, and in
particular the score of every venue is unchanged across the viewing user's
own toggle. -/
theorem score_self_toggle_invariant :
    (∀ (env : Env) (u v : String) (I1 I2 : List Interest),
      I1.filter (fun i => i.user_id != u) =
        I2.filter (fun i => i.user_id != u) →
      (calculate_recommendation_score env I1 u v).1 =
        (calculate_recommendation_score env I2 u v).1) ∧
    (∀ (env : Env) (ag : AgentFun) (st : ServerState) (u w : String)
      (now : Nat) (r : InterestResponse) (st' : ServerState),
      express_interest env ag st u w now = ToggleResult.ok r st' →
      ∀ v : String,
        (calculate_recommendation_score env st'.interests u v).1 =
          (calculate_recommendation_score env st.interests u v).1) := by
  constructor
  · exact score_other_users_only
  · intro env ag st u w now r st' h v
    apply score_other_users_only
    rcases express_ok_interests h with ⟨_, hint⟩ | ⟨_, hint⟩
    · rw [hint, List.filter_append]
      simp
    · rw [hint]
      apply filter_eraseP_of_imp
      intro a hp
      simp only [Bool.and_eq_true, beq_iff_eq] at hp
      simp [bne, hp.1]

/-- Witness for C4 at concrete inputs: a self-toggle of u1 on v1 leaves
u1's score for v1 unchanged. -/
theorem score_self_toggle_invariant_witness :
    express_interest envW (realAgent 7 "t") ⟨[⟨"u2", "v1", 5⟩], []⟩
        "u1" "v1" 9 =
      ToggleResult.ok
        ⟨true, false, "Interest recorded successfully", none, some false⟩
        ⟨[⟨"u2", "v1", 5⟩, ⟨"u1", "v1", 9⟩], []⟩ ∧
    (calculate_recommendation_score envW
        [⟨"u2", "v1", 5⟩, ⟨"u1", "v1", 9⟩] "u1" "v1").1 =
      (calculate_recommendation_score envW [⟨"u2", "v1", 5⟩] "u1" "v1").1 := by
  have h : express_interest envW (realAgent 7 "t") ⟨[⟨"u2", "v1", 5⟩], []⟩
      "u1" "v1" 9 =
    ToggleResult.ok
      ⟨true, false, "Interest recorded successfully", none, some false⟩
      ⟨[⟨"u2", "v1", 5⟩, ⟨"u1", "v1", 9⟩], []⟩ := by decide
  exact ⟨h, score_self_toggle_invariant.2 envW (realAgent 7 "t")
    ⟨[⟨"u2", "v1", 5⟩], []⟩ "u1" "v1" 9 _ _ h "v1"⟩

lemma any_eraseP_of_imp {α : Type} (p q : α → Bool)
    (h : ∀ a, p a = true → q a = false) :
    ∀ l : List α, (l.eraseP p).any q = l.any q := by
  intro l
  induction l with
  | nil => rfl
  | cons a t ih =>
      by_cases hp : p a
      · rw [List.eraseP_cons_of_pos hp, List.any_cons, h a hp]
        simp
      · rw [List.eraseP_cons_of_neg hp, List.any_cons, List.any_cons, ih]

lemma countP_eraseP_of_le_one {α : Type} (p : α → Bool) :
    ∀ l : List α, l.countP p ≤ 1 → (l.eraseP p).countP p = 0 := by
  intro l
  induction l with
  | nil => intro; rfl
  | cons a t ih =>
      intro hle
      by_cases hp : p a
      · rw [List.countP_cons_of_pos _ _ hp] at hle
        rw [List.eraseP_cons_of_pos hp]
        omega
      · rw [List.countP_cons_of_neg _ _ hp] at hle
        rw [List.eraseP_cons_of_neg hp, List.countP_cons_of_neg _ _ hp]
        exact ih hle

/-- C9: two consecutive toggles of the same (user, venue) pair, with no
events in between, restore the ledger's membership: every pair holds an
Interest after the second call exactly when it held one before the first.
The ledger-uniqueness hypothesis is the data-model invariant (at most one
Interest per pair). -/
theorem toggle_toggle_ledger_identity (env : Env) (ag1 ag2 : AgentFun)
    (st : ServerState) (u v : String) (n1 n2 : Nat)
    (r1 : InterestResponse) (st1 : ServerState)
    (r2 : InterestResponse) (st2 : ServerState)
    (huniq : st.interests.countP
      (fun i => i.user_id == u && i.venue_id == v) ≤ 1)
    (h1 : express_interest env ag1 st u v n1 = ToggleResult.ok r1 st1)
    (h2 : express_interest env ag2 st1 u v n2 = ToggleResult.ok r2 st2) :
    ∀ a b : String, hasInterest st2 a b = hasInterest st a b := by
  intro a b
  have hpx : (fun i : Interest => i.user_id == u && i.venue_id == v)
      (⟨u, v, n1⟩ : Interest) = true := by simp
  rcases express_ok_interests h1 with ⟨hf1, hi1⟩ | ⟨⟨i0, hf1⟩, hi1⟩
  · -- first call was toggle-on
    have hf2 : st1.interests.find?
        (fun i => i.user_id == u && i.venue_id == v) =
          some (⟨u, v, n1⟩ : Interest) := by
      rw [hi1, List.find?_append, hf1]
      simp
    rcases express_ok_interests h2 with ⟨hf2', _⟩ | ⟨_, hi2⟩
    · rw [hf2'] at hf2
      cases hf2
    · have hnone : ∀ x ∈ st.interests,
          ¬((fun i : Interest => i.user_id == u && i.venue_id == v) x = true) :=
        List.find?_eq_none.mp hf1
      have : st2.interests = st.interests := by
        rw [hi2, hi1, List.eraseP_append_right _ (by
          intro x hx
          exact Bool.not_eq_true _ ▸ (by simpa using hnone x hx))]
        simp
      unfold hasInterest
      rw [this]
  · -- first call was toggle-off
    have hcnt : st1.interests.countP
        (fun i => i.user_id == u && i.venue_id == v) = 0 := by
      rw [hi1]
      exact countP_eraseP_of_le_one _ _ huniq
    have hf2 : st1.interests.find?
        (fun i => i.user_id == u && i.venue_id == v) = none := by
      rw [List.find?_eq_none]
      intro x hx
      have := List.countP_eq_zero.mp hcnt x hx
      simpa using this
    rcases express_ok_interests h2 with ⟨_, hi2⟩ | ⟨⟨i1, hf2'⟩, _⟩
    · -- second call was toggle-on
      have hmem := List.mem_of_find?_eq_some hf1
      have hpi0 := List.find?_some hf1
      simp only [Bool.and_eq_true, beq_iff_eq] at hpi0
      unfold hasInterest
      rw [hi2, hi1, List.any_append]
      by_cases hq : ((u == a) && (v == b)) = true
      · have hra : st.interests.any
            (fun i => i.user_id == a && i.venue_id == b) = true := by
          rw [List.any_eq_true]
          exact ⟨i0, hmem, by rw [hpi0.1, hpi0.2]; exact hq⟩
        rw [hra]
        simp [hq]
      · have hq' : ((⟨u, v, n2⟩ : Interest).user_id == a &&
            (⟨u, v, n2⟩ : Interest).venue_id == b) = false := by
          simpa using hq
        have herase : (st.interests.eraseP
            (fun i => i.user_id == u && i.venue_id == v)).any
              (fun i => i.user_id == a && i.venue_id == b) =
            st.interests.any (fun i => i.user_id == a && i.venue_id == b) := by
          apply any_eraseP_of_imp
          intro x hpxx
          simp only [Bool.and_eq_true, beq_iff_eq] at hpxx
          rw [hpxx.1, hpxx.2]
          simpa using hq
        simp only [List.any_cons, List.any_nil, hq', Bool.or_false, herase]
    · rw [hf2'] at hf2
      cases hf2

/-- Witness for C9: toggle u1 on then off on v1 from a one-interest state;
membership returns to the original. -/
theorem toggle_toggle_ledger_identity_witness :
    (([⟨"u2", "v1", 5⟩] : List Interest).countP
      (fun i => i.user_id == "u1" && i.venue_id == "v1") ≤ 1) ∧
    express_interest envW (realAgent 7 "ta") ⟨[⟨"u2", "v1", 5⟩], []⟩
        "u1" "v1" 9 =
      ToggleResult.ok
        ⟨true, false, "Interest recorded successfully", none, some false⟩
        ⟨[⟨"u2", "v1", 5⟩, ⟨"u1", "v1", 9⟩], []⟩ ∧
    express_interest envW (realAgent 8 "tb")
        ⟨[⟨"u2", "v1", 5⟩, ⟨"u1", "v1", 9⟩], []⟩ "u1" "v1" 11 =
      ToggleResult.ok
        ⟨true, false, "Interest removed for Cafe X", none, some false⟩
        ⟨[⟨"u2", "v1", 5⟩], []⟩ ∧
    hasInterest ⟨[⟨"u2", "v1", 5⟩], []⟩ "u1" "v1" =
      hasInterest ⟨[⟨"u2", "v1", 5⟩], []⟩ "u1" "v1" := by
  refine ⟨by decide, by decide, by decide, ?_⟩
  exact toggle_toggle_ledger_identity envW (realAgent 7 "ta")
    (realAgent 8 "tb") ⟨[⟨"u2", "v1", 5⟩], []⟩ "u1" "v1" 9 11
    ⟨true, false, "Interest recorded successfully", none, some false⟩
    ⟨[⟨"u2", "v1", 5⟩, ⟨"u1", "v1", 9⟩], []⟩
    ⟨true, false, "Interest removed for Cafe X", none, some false⟩
    ⟨[⟨"u2", "v1", 5⟩], []⟩ (by decide) (by decide) (by decide) "u1" "v1"

lemma cancelFirstActive_decomp (v : String) :
    ∀ (bs : List Booking) (b : Booking),
      bs.find? (fun x => x.venue_id == v && x.status == "active") = some b →
      ∃ pre post, bs = pre ++ b :: post ∧
        (∀ x ∈ pre, ¬(x.venue_id = v ∧ x.status = "active")) ∧
        cancelFirstActive bs v =
          pre ++ ({ b with status := "cancelled" } : Booking) :: post := by
  intro bs
  induction bs with
  | nil => intro b h; cases h
  | cons x rest ih =>
      intro b h
      cases hx : x.venue_id == v && x.status == "active" with
      | true =>
          simp only [List.find?_cons, hx] at h
          cases h
          refine ⟨[], rest, by simp, by simp, ?_⟩
          unfold cancelFirstActive
          simp [hx]
      | false =>
          simp only [List.find?_cons, hx] at h
          obtain ⟨pre, post, hbs, hpre, hcancel⟩ := ih b h
          refine ⟨x :: pre, post, by rw [hbs]; simp, ?_, ?_⟩
          · intro y hy
            rcases List.mem_cons.mp hy with hy | hy
            · subst hy
              intro ⟨h1, h2⟩
              simp [h1, h2] at hx
            · exact hpre y hy
          · unfold cancelFirstActive
            simp only [hx, Bool.false_eq_true, if_false, hcancel]
            simp

lemma activeBookingCount_cancel_le (v w : String) :
    ∀ bs : List Booking,
      activeBookingCount (cancelFirstActive bs v) w ≤ activeBookingCount bs w := by
  intro bs
  induction bs with
  | nil => simp [cancelFirstActive, activeBookingCount]
  | cons x rest ih =>
      unfold cancelFirstActive activeBookingCount
      unfold activeBookingCount at ih
      cases hx : x.venue_id == v && x.status == "active" with
      | true =>
          simp only [hx, if_true]
          rw [List.countP_cons, List.countP_cons]
          have : (("cancelled" : String) == "active") = false := by decide
          simp only [Bool.and_eq_true, beq_iff_eq] at hx
          simp [this, hx.2]
      | false =>
          simp only [hx, Bool.false_eq_true, if_false]
          rw [List.countP_cons, List.countP_cons]
          omega

lemma activeBookingCount_cancel_self (v : String) :
    ∀ bs : List Booking, activeBookingCount bs v ≤ 1 →
      activeBookingCount (cancelFirstActive bs v) v = 0 := by
  intro bs
  induction bs with
  | nil => intro; rfl
  | cons x rest ih =>
      intro hle
      unfold cancelFirstActive activeBookingCount
      unfold activeBookingCount at hle ih
      cases hx : x.venue_id == v && x.status == "active" with
      | true =>
          simp only [hx, if_true]
          rw [List.countP_cons] at hle
          simp only [hx, if_true] at hle
          rw [List.countP_cons]
          have hc : (("cancelled" : String) == "active") = false := by decide
          simp only [hc, Bool.and_false, Bool.false_eq_true, if_false]
          omega
      | false =>
          simp only [hx, Bool.false_eq_true, if_false]
          rw [List.countP_cons] at hle
          simp only [hx, Bool.false_eq_true, if_false] at hle
          rw [List.countP_cons]
          simp only [hx, Bool.false_eq_true, if_false]
          have := ih (by omega)
          omega

/-- C2: toggle-off removes exactly the recorded Interest and recomputes the
count; when an active booking exists and the new count is below 3 the first
active booking for the venue is transitioned to "cancelled" (all other
fields and records untouched), the outcome is BookingCancelled, and —
under the registry invariant — `GET /venues/{id}/booking` no longer
returns a booking; otherwise the outcome is InterestRemoved and the
registry is unchanged. -/
theorem express_interest_toggle_off_outcomes
    (env : Env) (ag : AgentFun) (st : ServerState) (u v : String) (now : Nat)
    (user : User) (venue : Venue) (i0 : Interest)
    (r : InterestResponse) (st' : ServerState)
    (hu : env.users.lookup u = some user)
    (hv : env.venues.lookup v = some venue)
    (hyes : st.interests.find?
      (fun i => i.user_id == u && i.venue_id == v) = some i0)
    (h : express_interest env ag st u v now = ToggleResult.ok r st') :
    st'.interests = st.interests.eraseP
      (fun i => i.user_id == u && i.venue_id == v) ∧
    (∀ b, st.bookings.find?
        (fun x => x.venue_id == v && x.status == "active") = some b →
      get_interested_count st'.interests v < 3 →
      r = ⟨true, false,
        "Interest removed. Booking cancelled due to insufficient interest.",
        none, some true⟩ ∧
      st'.bookings = cancelFirstActive st.bookings v ∧
      (∃ pre post, st.bookings = pre ++ b :: post ∧
        (∀ x ∈ pre, ¬(x.venue_id = v ∧ x.status = "active")) ∧
        st'.bookings = pre ++ ({ b with status := "cancelled" } : Booking) :: post) ∧
      (activeBookingCount st.bookings v ≤ 1 →
        get_venue_booking env st' v = VenueBookingResult.noBooking)) ∧
    ((st.bookings.find?
        (fun x => x.venue_id == v && x.status == "active") = none ∨
      3 ≤ get_interested_count st'.interests v) →
      r = ⟨true, false, "Interest removed for " ++ venue.name,
        none, some false⟩ ∧
      st'.bookings = st.bookings) := by
  rw [express_off_eq env ag st u v now user venue i0 hu hv hyes] at h
  split at h
  · rename_i hcond
    simp only [ToggleResult.ok.injEq] at h
    obtain ⟨hr, hst⟩ := h
    subst hst
    refine ⟨rfl, ?_, ?_⟩
    · intro b hb _
      obtain ⟨pre, post, hbs, hpre, hcancel⟩ :=
        cancelFirstActive_decomp v st.bookings b hb
      refine ⟨hr.symm, rfl, ⟨pre, post, hbs, hpre, hcancel⟩, ?_⟩
      intro hle
      have h0 : activeBookingCount (cancelFirstActive st.bookings v) v = 0 :=
        activeBookingCount_cancel_self v st.bookings hle
      have hfn : (cancelFirstActive st.bookings v).find?
          (fun x => x.venue_id == v && x.status == "active") = none := by
        rw [List.find?_eq_none]
        intro x hx
        have := List.countP_eq_zero.mp h0 x hx
        simpa using this
      simp [get_venue_booking, hv, hfn]
    · intro hdisj
      exfalso
      rcases hdisj with hnone | hge
      · rw [hnone] at hcond
        simp at hcond
      · have hge' : 3 ≤ get_interested_count
            (st.interests.eraseP
              (fun i => i.user_id == u && i.venue_id == v)) v := hge
        simp only [Bool.and_eq_true, decide_eq_true_eq] at hcond
        omega
  · rename_i hcond
    simp only [ToggleResult.ok.injEq] at h
    obtain ⟨hr, hst⟩ := h
    subst hst
    refine ⟨rfl, ?_, fun _ => ⟨hr.symm, rfl⟩⟩
    intro b hb hlt
    exfalso
    apply hcond
    rw [hb]
    simp only [Option.isSome_some, Bool.true_and, decide_eq_true_eq]
    exact hlt

/-- Witness for C2: from 3 interests and an active booking, u1 toggling off
cancels the booking and `GET /venues/v1/booking` reports none. -/
theorem express_interest_toggle_off_outcomes_witness :
    express_interest envW (realAgent 7 "t")
        ⟨[⟨"u1", "v1", 0⟩, ⟨"u2", "v1", 1⟩, ⟨"u3", "v1", 2⟩],
         [⟨"booking_1", "v1", ["u1", "u2", "u3"], "LUNA-v1-3", "tc", "active"⟩]⟩
        "u1" "v1" 9 =
      ToggleResult.ok
        ⟨true, false,
         "Interest removed. Booking cancelled due to insufficient interest.",
         none, some true⟩
        ⟨[⟨"u2", "v1", 1⟩, ⟨"u3", "v1", 2⟩],
         [⟨"booking_1", "v1", ["u1", "u2", "u3"], "LUNA-v1-3", "tc",
           "cancelled"⟩]⟩ ∧
    get_venue_booking envW
        ⟨[⟨"u2", "v1", 1⟩, ⟨"u3", "v1", 2⟩],
         [⟨"booking_1", "v1", ["u1", "u2", "u3"], "LUNA-v1-3", "tc",
           "cancelled"⟩]⟩ "v1" = VenueBookingResult.noBooking := by
  have h : express_interest envW (realAgent 7 "t")
      ⟨[⟨"u1", "v1", 0⟩, ⟨"u2", "v1", 1⟩, ⟨"u3", "v1", 2⟩],
       [⟨"booking_1", "v1", ["u1", "u2", "u3"], "LUNA-v1-3", "tc", "active"⟩]⟩
      "u1" "v1" 9 =
    ToggleResult.ok
      ⟨true, false,
       "Interest removed. Booking cancelled due to insufficient interest.",
       none, some true⟩
      ⟨[⟨"u2", "v1", 1⟩, ⟨"u3", "v1", 2⟩],
       [⟨"booking_1", "v1", ["u1", "u2", "u3"], "LUNA-v1-3", "tc",
         "cancelled"⟩]⟩ := by decide
  refine ⟨h, ?_⟩
  have hmain := express_interest_toggle_off_outcomes envW (realAgent 7 "t")
    ⟨[⟨"u1", "v1", 0⟩, ⟨"u2", "v1", 1⟩, ⟨"u3", "v1", 2⟩],
     [⟨"booking_1", "v1", ["u1", "u2", "u3"], "LUNA-v1-3", "tc", "active"⟩]⟩
    "u1" "v1" 9 uW1 vW1 ⟨"u1", "v1", 0⟩ _ _ (by decide) (by decide)
    (by decide) h
  exact (hmain.2.1
    ⟨"booking_1", "v1", ["u1", "u2", "u3"], "LUNA-v1-3", "tc", "active"⟩
    (by decide) (by decide)).2.2.2 (by decide)

lemma toggle_on_cases (env : Env) (st : ServerState) (u v : String)
    (now rand : Nat) (anow : String) (user : User) (venue : Venue)
    (r : InterestResponse) (st' : ServerState)
    (hu : env.users.lookup u = some user)
    (hv : env.venues.lookup v = some venue)
    (hno : st.interests.find?
      (fun i => i.user_id == u && i.venue_id == v) = none)
    (h : express_interest env (realAgent rand anow) st u v now =
      ToggleResult.ok r st') :
    st'.interests = st.interests ++ [⟨u, v, now⟩] ∧
    (get_interested_count (st.interests ++ [⟨u, v, now⟩]) v < 3 →
      r = ⟨true, false, "Interest recorded successfully", none, some false⟩ ∧
      st'.bookings = st.bookings) ∧
    (3 ≤ get_interested_count (st.interests ++ [⟨u, v, now⟩]) v →
      (∀ b, st.bookings.find?
          (fun x => x.venue_id == v && x.status == "active") = some b →
        r = ⟨true, false,
          "Interest recorded. Active booking already exists for "
            ++ venue.name, some b.reservation_code, some false⟩ ∧
        st'.bookings = st.bookings) ∧
      (st.bookings.find?
          (fun x => x.venue_id == v && x.status == "active") = none →
        r = ⟨true, true,
          "Mock booking agent: Reserved table for "
            ++ toString (get_interested_count
              (st.interests ++ [⟨u, v, now⟩]) v) ++ " at " ++ venue.name,
          some ("LUNA-" ++ v ++ "-" ++ toString rand), some false⟩ ∧
        st'.bookings = st.bookings ++
          [⟨"booking_" ++ toString (st.bookings.length + 1), v,
            ((st.interests ++ [(⟨u, v, now⟩ : Interest)]).filter
              (fun i => i.venue_id == v)).map (fun i => i.user_id),
            "LUNA-" ++ v ++ "-" ++ toString rand, anow, "active"⟩])) := by
  rw [express_on_eq env (realAgent rand anow) st u v now user venue hu hv hno]
    at h
  simp only [realAgent] at h
  have hlen : (((st.interests ++ [(⟨u, v, now⟩ : Interest)]).filter
      (fun i => i.venue_id == v)).map (fun i => i.user_id)).length =
      get_interested_count (st.interests ++ [⟨u, v, now⟩]) v := by
    rw [List.length_map, get_interested_count, List.countP_eq_length_filter]
  by_cases hn : get_interested_count (st.interests ++ [⟨u, v, now⟩]) v < 3
  · have hag : booking_agent v venue.name
        (((st.interests ++ [(⟨u, v, now⟩ : Interest)]).filter
          (fun i => i.venue_id == v)).map (fun i => i.user_id)).length
        (((st.interests ++ [(⟨u, v, now⟩ : Interest)]).filter
          (fun i => i.venue_id == v)).map (fun i => i.user_id))
        st.bookings rand anow = AgentResult.notTriggered := by
      unfold booking_agent
      rw [if_pos (by omega)]
    rw [hag] at h
    simp only [ToggleResult.ok.injEq] at h
    obtain ⟨hr, hst⟩ := h
    subst hst
    exact ⟨rfl, fun _ => ⟨hr.symm, rfl⟩, fun h3 => absurd h3 (by omega)⟩
  · cases hfb : st.bookings.find?
        (fun x => x.venue_id == v && x.status == "active") with
    | some b =>
        have hag : booking_agent v venue.name
            (((st.interests ++ [(⟨u, v, now⟩ : Interest)]).filter
              (fun i => i.venue_id == v)).map (fun i => i.user_id)).length
            (((st.interests ++ [(⟨u, v, now⟩ : Interest)]).filter
              (fun i => i.venue_id == v)).map (fun i => i.user_id))
            st.bookings rand anow =
            AgentResult.bookingExists v
              ("Active booking already exists for " ++ venue.name)
              b.reservation_code := by
          unfold booking_agent
          rw [if_neg (by omega), hfb]
        rw [hag] at h
        simp only [ToggleResult.ok.injEq] at h
        obtain ⟨hr, hst⟩ := h
        subst hst
        refine ⟨rfl, fun hlt => absurd hlt (by omega), fun _ => ⟨?_, ?_⟩⟩
        · intro b' hb'
          injection hb' with hbb
          subst hbb
          exact ⟨hr.symm, rfl⟩
        · intro hbn
          exact Option.noConfusion hbn
    | none =>
        have hag : booking_agent v venue.name
            (((st.interests ++ [(⟨u, v, now⟩ : Interest)]).filter
              (fun i => i.venue_id == v)).map (fun i => i.user_id)).length
            (((st.interests ++ [(⟨u, v, now⟩ : Interest)]).filter
              (fun i => i.venue_id == v)).map (fun i => i.user_id))
            st.bookings rand anow =
            AgentResult.created v
              ("booking_" ++ toString (st.bookings.length + 1))
              ("Mock booking agent: Reserved table for "
                ++ toString (get_interested_count
                  (st.interests ++ [⟨u, v, now⟩]) v) ++ " at " ++ venue.name)
              ("LUNA-" ++ v ++ "-" ++ toString rand)
              (((st.interests ++ [(⟨u, v, now⟩ : Interest)]).filter
                (fun i => i.venue_id == v)).map (fun i => i.user_id))
              anow := by
          unfold booking_agent
          rw [if_neg (by omega), hfb, hlen]
        rw [hag] at h
        simp only [ToggleResult.ok.injEq] at h
        obtain ⟨hr, hst⟩ := h
        subst hst
        refine ⟨rfl, fun hlt => absurd hlt (by omega), fun _ => ⟨?_, ?_⟩⟩
        · intro b' hb'
          exact Option.noConfusion hb'
        · intro _
          exact ⟨hr.symm, rfl⟩

/-- C1: a toggle-on by an existing user for an existing venue appends an
Interest with the call's timestamp and returns exactly one of: recorded
(count below 3, registry untouched); already-active (count at least 3 and
an active booking exists, carrying that booking's code, registry
untouched); created (count at least 3, no active booking: a fresh code and
booking id are minted and a new active booking is appended).  Moreover,
from a state with exactly 2 interests and no active booking, a 3rd
distinct user's toggle-on yields BookingCreated and a 4th distinct user's
toggle-on yields BookingAlreadyActive with the same reservation code. -/
theorem express_interest_toggle_on_outcomes
    (env : Env) (st : ServerState) (u v : String) (now rand : Nat)
    (anow : String) (user : User) (venue : Venue)
    (r : InterestResponse) (st' : ServerState)
    (hu : env.users.lookup u = some user)
    (hv : env.venues.lookup v = some venue)
    (hno : st.interests.find?
      (fun i => i.user_id == u && i.venue_id == v) = none)
    (h : express_interest env (realAgent rand anow) st u v now =
      ToggleResult.ok r st') :
    (st'.interests = st.interests ++ [⟨u, v, now⟩] ∧
     (get_interested_count (st.interests ++ [⟨u, v, now⟩]) v < 3 →
       r = ⟨true, false, "Interest recorded successfully", none, some false⟩ ∧
       st'.bookings = st.bookings) ∧
     (3 ≤ get_interested_count (st.interests ++ [⟨u, v, now⟩]) v →
       (∀ b, st.bookings.find?
           (fun x => x.venue_id == v && x.status == "active") = some b →
         r = ⟨true, false,
           "Interest recorded. Active booking already exists for "
             ++ venue.name, some b.reservation_code, some false⟩ ∧
         st'.bookings = st.bookings) ∧
       (st.bookings.find?
           (fun x => x.venue_id == v && x.status == "active") = none →
         r = ⟨true, true,
           "Mock booking agent: Reserved table for "
             ++ toString (get_interested_count
               (st.interests ++ [⟨u, v, now⟩]) v) ++ " at " ++ venue.name,
           some ("LUNA-" ++ v ++ "-" ++ toString rand), some false⟩ ∧
         st'.bookings = st.bookings ++
           [⟨"booking_" ++ toString (st.bookings.length + 1), v,
             ((st.interests ++ [(⟨u, v, now⟩ : Interest)]).filter
               (fun i => i.venue_id == v)).map (fun i => i.user_id),
             "LUNA-" ++ v ++ "-" ++ toString rand, anow, "active"⟩]))) ∧
    (∀ (st2 : ServerState) (u3 u4 : String) (user3 user4 : User)
       (n1 n2 rand1 rand2 : Nat) (anow1 anow2 : String)
       (r1 : InterestResponse) (st1' : ServerState)
       (r2 : InterestResponse) (st2' : ServerState),
      env.users.lookup u3 = some user3 →
      env.users.lookup u4 = some user4 →
      (u3 == u4) = false →
      get_interested_count st2.interests v = 2 →
      st2.interests.find?
        (fun i => i.user_id == u3 && i.venue_id == v) = none →
      st2.interests.find?
        (fun i => i.user_id == u4 && i.venue_id == v) = none →
      st2.bookings.find?
        (fun x => x.venue_id == v && x.status == "active") = none →
      express_interest env (realAgent rand1 anow1) st2 u3 v n1 =
        ToggleResult.ok r1 st1' →
      express_interest env (realAgent rand2 anow2) st1' u4 v n2 =
        ToggleResult.ok r2 st2' →
      r1.agent_triggered = true ∧
      r1.reservation_code = some ("LUNA-" ++ v ++ "-" ++ toString rand1) ∧
      r2.agent_triggered = false ∧
      r2.reservation_code = r1.reservation_code) := by
  constructor
  · exact toggle_on_cases env st u v now rand anow user venue r st' hu hv hno h
  · intro st2 u3 u4 user3 user4 n1 n2 rand1 rand2 anow1 anow2 r1 st1' r2 st2'
      hu3 hu4 hne hcnt hno3 hno4 hnob h1 h2
    obtain ⟨hi1, _, h3case⟩ :=
      toggle_on_cases env st2 u3 v n1 rand1 anow1 user3 venue r1 st1'
        hu3 hv hno3 h1
    have hc1 : get_interested_count
        (st2.interests ++ [⟨u3, v, n1⟩]) v = 3 := by
      unfold get_interested_count at hcnt ⊢
      rw [List.countP_append, hcnt]
      simp
    obtain ⟨hr1, hb1⟩ := (h3case (by omega)).2 hnob
    have hno4' : st1'.interests.find?
        (fun i => i.user_id == u4 && i.venue_id == v) = none := by
      rw [hi1, List.find?_append, hno4]
      simp [hne]
    obtain ⟨hi2, _, h3case2⟩ :=
      toggle_on_cases env st1' u4 v n2 rand2 anow2 user4 venue r2 st2'
        hu4 hv hno4' h2
    have hc2 : 3 ≤ get_interested_count
        (st1'.interests ++ [⟨u4, v, n2⟩]) v := by
      unfold get_interested_count
      rw [List.countP_append, hi1, List.countP_append]
      unfold get_interested_count at hcnt
      rw [hcnt]
      simp
    have hfind2 : st1'.bookings.find?
        (fun x => x.venue_id == v && x.status == "active") =
        some (⟨"booking_" ++ toString (st2.bookings.length + 1), v,
          ((st2.interests ++ [(⟨u3, v, n1⟩ : Interest)]).filter
            (fun i => i.venue_id == v)).map (fun i => i.user_id),
          "LUNA-" ++ v ++ "-" ++ toString rand1, anow1, "active"⟩ : Booking) := by
      rw [hb1, List.find?_append, hnob]
      simp
    obtain ⟨hr2, _⟩ := (h3case2 hc2).1 _ hfind2
    refine ⟨by rw [hr1], by rw [hr1], by rw [hr2], ?_⟩
    rw [hr1, hr2]

/-- Witness for C1: from two interests on v1 and no booking, u3's toggle
creates a booking and u4's toggle reports the same reservation code. -/
theorem express_interest_toggle_on_outcomes_witness :
    express_interest envW (realAgent 1234 "ta") stW2 "u3" "v1" 2 =
      ToggleResult.ok
        ⟨true, true, "Mock booking agent: Reserved table for 3 at Cafe X",
         some "LUNA-v1-1234", some false⟩
        ⟨[⟨"u1", "v1", 0⟩, ⟨"u2", "v1", 1⟩, ⟨"u3", "v1", 2⟩],
         [⟨"booking_1", "v1", ["u1", "u2", "u3"], "LUNA-v1-1234", "ta",
           "active"⟩]⟩ ∧
    express_interest envW (realAgent 5678 "tb")
        ⟨[⟨"u1", "v1", 0⟩, ⟨"u2", "v1", 1⟩, ⟨"u3", "v1", 2⟩],
         [⟨"booking_1", "v1", ["u1", "u2", "u3"], "LUNA-v1-1234", "ta",
           "active"⟩]⟩ "u4" "v1" 3 =
      ToggleResult.ok
        ⟨true, false,
         "Interest recorded. Active booking already exists for Cafe X",
         some "LUNA-v1-1234", some false⟩
        ⟨[⟨"u1", "v1", 0⟩, ⟨"u2", "v1", 1⟩, ⟨"u3", "v1", 2⟩,
          ⟨"u4", "v1", 3⟩],
         [⟨"booking_1", "v1", ["u1", "u2", "u3"], "LUNA-v1-1234", "ta",
           "active"⟩]⟩ ∧
    ((⟨true, true, "Mock booking agent: Reserved table for 3 at Cafe X",
        some "LUNA-v1-1234", some false⟩ : InterestResponse).agent_triggered
        = true ∧
     (⟨true, true, "Mock booking agent: Reserved table for 3 at Cafe X",
        some "LUNA-v1-1234", some false⟩ : InterestResponse).reservation_code
        = some ("LUNA-" ++ "v1" ++ "-" ++ toString 1234) ∧
     (⟨true, false,
        "Interest recorded. Active booking already exists for Cafe X",
        some "LUNA-v1-1234", some false⟩ : InterestResponse).agent_triggered
        = false ∧
     (⟨true, false,
        "Interest recorded. Active booking already exists for Cafe X",
        some "LUNA-v1-1234", some false⟩ : InterestResponse).reservation_code
        =
       (⟨true, true, "Mock booking agent: Reserved table for 3 at Cafe X",
          some "LUNA-v1-1234", some false⟩
            : InterestResponse).reservation_code) := by
  have h1 : express_interest envW (realAgent 1234 "ta") stW2 "u3" "v1" 2 =
      ToggleResult.ok
        ⟨true, true, "Mock booking agent: Reserved table for 3 at Cafe X",
         some "LUNA-v1-1234", some false⟩
        ⟨[⟨"u1", "v1", 0⟩, ⟨"u2", "v1", 1⟩, ⟨"u3", "v1", 2⟩],
         [⟨"booking_1", "v1", ["u1", "u2", "u3"], "LUNA-v1-1234", "ta",
           "active"⟩]⟩ := by decide
  have h2 : express_interest envW (realAgent 5678 "tb")
      ⟨[⟨"u1", "v1", 0⟩, ⟨"u2", "v1", 1⟩, ⟨"u3", "v1", 2⟩],
       [⟨"booking_1", "v1", ["u1", "u2", "u3"], "LUNA-v1-1234", "ta",
         "active"⟩]⟩ "u4" "v1" 3 =
    ToggleResult.ok
      ⟨true, false,
       "Interest recorded. Active booking already exists for Cafe X",
       some "LUNA-v1-1234", some false⟩
      ⟨[⟨"u1", "v1", 0⟩, ⟨"u2", "v1", 1⟩, ⟨"u3", "v1", 2⟩,
        ⟨"u4", "v1", 3⟩],
       [⟨"booking_1", "v1", ["u1", "u2", "u3"], "LUNA-v1-1234", "ta",
         "active"⟩]⟩ := by decide
  refine ⟨h1, h2, ?_⟩
  exact (express_interest_toggle_on_outcomes envW stW2 "u3" "v1" 2 1234 "ta"
      uW3 vW1 _ _ (by decide) (by decide) (by decide) h1).2
    stW2 "u3" "u4" uW3 uW4 2 3 1234 5678 "ta" "tb" _ _ _ _
    (by decide) (by decide) (by decide) (by decide) (by decide) (by decide)
    (by decide) h1 h2

lemma express_real_bookings {env : Env} {rand : Nat} {anow : String}
    {st : ServerState} {u v : String} {now : Nat}
    {r : InterestResponse} {st' : ServerState}
    (h : express_interest env (realAgent rand anow) st u v now =
      ToggleResult.ok r st') :
    st'.bookings = st.bookings ∨
    st'.bookings = cancelFirstActive st.bookings v ∨
    (st.bookings.find?
        (fun x => x.venue_id == v && x.status == "active") = none ∧
      ∃ b : Booking, b.venue_id = v ∧ b.status = "active" ∧
        st'.bookings = st.bookings ++ [b]) := by
  cases hu0 : env.users.lookup u with
  | none =>
      unfold express_interest at h
      rw [hu0] at h
      simp at h
  | some user =>
    cases hv0 : env.venues.lookup v with
    | none =>
        unfold express_interest at h
        rw [hu0, hv0] at h
        simp at h
    | some venue =>
      cases hf : st.interests.find?
          (fun i => i.user_id == u && i.venue_id == v) with
      | some i0 =>
          rw [express_off_eq env (realAgent rand anow) st u v now user venue
            i0 hu0 hv0 hf] at h
          split at h <;> simp only [ToggleResult.ok.injEq] at h <;>
            rw [← h.2]
          · right; left; rfl
          · left; rfl
      | none =>
          rw [express_on_eq env (realAgent rand anow) st u v now user venue
            hu0 hv0 hf] at h
          simp only [realAgent] at h
          cases hag : booking_agent v venue.name
              (((st.interests ++ [(⟨u, v, now⟩ : Interest)]).filter
                (fun i => i.venue_id == v)).map (fun i => i.user_id)).length
              (((st.interests ++ [(⟨u, v, now⟩ : Interest)]).filter
                (fun i => i.venue_id == v)).map (fun i => i.user_id))
              st.bookings rand anow with
          | notTriggered =>
              rw [hag] at h
              simp only [ToggleResult.ok.injEq] at h
              left
              rw [← h.2]
          | bookingExists a m c =>
              rw [hag] at h
              simp only [ToggleResult.ok.injEq] at h
              left
              rw [← h.2]
          | created a bid m code us cat =>
              rw [hag] at h
              simp only [ToggleResult.ok.injEq] at h
              obtain ⟨_, hfn, _, _, _, _, _⟩ := booking_agent_created_inv hag
              right; right
              exact ⟨hfn, ⟨bid, v, us, code, cat, "active"⟩, rfl, rfl,
                by rw [← h.2]⟩

lemma applyToggle_preserves_inv (env : Env) (st : ServerState)
    (op : ToggleOp) (hinv : atMostOneActive st) :
    atMostOneActive (applyToggle env st op) := by
  unfold applyToggle
  cases hres : express_interest env (realAgent op.rand op.agentNow) st
      op.user_id op.venue_id op.now with
  | notFound d => exact hinv
  | ok r st' =>
      intro w
      rcases express_real_bookings hres with hb | hb | ⟨hfn, b, hbv, hbs, hb⟩
      · rw [hb]; exact hinv w
      · rw [hb]
        exact le_trans (activeBookingCount_cancel_le op.venue_id w st.bookings)
          (hinv w)
      · rw [hb]
        unfold activeBookingCount
        rw [List.countP_append]
        by_cases hw : op.venue_id = w
        · have h0 : st.bookings.countP
              (fun x => x.venue_id == w && x.status == "active") = 0 := by
            rw [List.countP_eq_zero]
            intro x hx
            have := List.find?_eq_none.mp hfn x hx
            rw [← hw]
            simpa using this
          unfold activeBookingCount at h0
          rw [h0]
          simp [hbv, hbs, hw]
        · have h1 : (List.countP
              (fun x => x.venue_id == w && x.status == "active") [b]) = 0 := by
            simp [hbv, hbs]
            intro hc
            exact absurd hc hw
          rw [h1]
          have := hinv w
          unfold activeBookingCount at this
          omega

lemma runToggles_preserves_inv (env : Env) (ops : List ToggleOp) :
    ∀ st : ServerState, atMostOneActive st →
      atMostOneActive (runToggles env st ops) := by
  induction ops with
  | nil => intro st h; exact h
  | cons op ops ih =>
      intro st h
      exact ih (applyToggle env st op) (applyToggle_preserves_inv env st op h)

/-- C5: in every state reachable from an empty Booking Registry by toggle
operations there is at most one active booking per venue, and every toggle
preserves the invariant. -/
theorem active_booking_uniqueness_invariant :
    (∀ interests0 : List Interest,
      atMostOneActive ⟨interests0, []⟩) ∧
    (∀ (env : Env) (st : ServerState) (op : ToggleOp),
      atMostOneActive st → atMostOneActive (applyToggle env st op)) ∧
    (∀ (env : Env) (interests0 : List Interest) (ops : List ToggleOp),
      atMostOneActive (runToggles env ⟨interests0, []⟩ ops)) := by
  refine ⟨?_, applyToggle_preserves_inv, ?_⟩
  · intro interests0 w
    simp [activeBookingCount]
  · intro env interests0 ops
    exact runToggles_preserves_inv env ops ⟨interests0, []⟩
      (fun w => by simp [activeBookingCount])

/-- Witness for C5: the step-preservation hypothesis discharged on a
concrete three-interest state carrying one active booking. -/
theorem active_booking_uniqueness_invariant_witness :
    atMostOneActive
      ⟨[⟨"u1", "v1", 0⟩, ⟨"u2", "v1", 1⟩, ⟨"u3", "v1", 2⟩],
       [⟨"booking_1", "v1", ["u1", "u2", "u3"], "LUNA-v1-3", "tc",
         "active"⟩]⟩ ∧
    atMostOneActive
      (applyToggle envW
        ⟨[⟨"u1", "v1", 0⟩, ⟨"u2", "v1", 1⟩, ⟨"u3", "v1", 2⟩],
         [⟨"booking_1", "v1", ["u1", "u2", "u3"], "LUNA-v1-3", "tc",
           "active"⟩]⟩
        ⟨"u4", "v1", 3, 9, "td"⟩) := by
  have hbase : atMostOneActive
      ⟨[⟨"u1", "v1", 0⟩, ⟨"u2", "v1", 1⟩, ⟨"u3", "v1", 2⟩],
       [⟨"booking_1", "v1", ["u1", "u2", "u3"], "LUNA-v1-3", "tc",
         "active"⟩]⟩ := by
    intro w
    unfold activeBookingCount
    rw [List.countP_cons, List.countP_nil]
    split <;> omega
  exact ⟨hbase, active_booking_uniqueness_invariant.2.1 envW _
    ⟨"u4", "v1", 3, 9, "td"⟩ hbase⟩

lemma frameR_refl (b : Booking) : frameR b b :=
  ⟨rfl, rfl, rfl, rfl, rfl, Or.inl rfl⟩

lemma cancelFirstActive_length (v : String) :
    ∀ bs : List Booking, (cancelFirstActive bs v).length = bs.length := by
  intro bs
  induction bs with
  | nil => rfl
  | cons x rest ih =>
      unfold cancelFirstActive
      split
      · simp
      · simp [ih]

lemma cancelFirstActive_get (v : String) :
    ∀ (bs : List Booking) (i : Nat) (hi : i < bs.length)
      (hi' : i < (cancelFirstActive bs v).length),
      frameR (bs.get ⟨i, hi⟩) ((cancelFirstActive bs v).get ⟨i, hi'⟩) := by
  intro bs
  induction bs with
  | nil => intro i hi; simp at hi
  | cons x rest ih =>
      intro i hi hi'
      cases hx : x.venue_id == v && x.status == "active" with
      | true =>
          have hcan : cancelFirstActive (x :: rest) v =
              { x with status := "cancelled" } :: rest := by
            unfold cancelFirstActive
            rw [if_pos hx]
          rw [List.get_of_eq hcan]
          cases i with
          | zero =>
              have hxs : x.status = "active" := by
                simp only [Bool.and_eq_true, beq_iff_eq] at hx
                exact hx.2
              exact ⟨rfl, rfl, rfl, rfl, rfl, Or.inr ⟨hxs, rfl⟩⟩
          | succ j =>
              exact frameR_refl _
      | false =>
          have hcan : cancelFirstActive (x :: rest) v =
              x :: cancelFirstActive rest v := by
            simp only [cancelFirstActive]
            simp only [hx, Bool.false_eq_true, if_false]
          rw [List.get_of_eq hcan]
          cases i with
          | zero =>
              exact frameR_refl _
          | succ j =>
              have hj : j < rest.length := by simpa using hi
              exact ih j hj _

lemma express_any_bookings {env : Env} {ag : AgentFun} {st : ServerState}
    {u v : String} {now : Nat} {r : InterestResponse} {st' : ServerState}
    (h : express_interest env ag st u v now = ToggleResult.ok r st') :
    st'.bookings = st.bookings ∨
    st'.bookings = cancelFirstActive st.bookings v ∨
    ∃ b : Booking, b.status = "active" ∧
      st'.bookings = st.bookings ++ [b] := by
  cases hu0 : env.users.lookup u with
  | none =>
      unfold express_interest at h
      rw [hu0] at h
      simp at h
  | some user =>
    cases hv0 : env.venues.lookup v with
    | none =>
        unfold express_interest at h
        rw [hu0, hv0] at h
        simp at h
    | some venue =>
      cases hf : st.interests.find?
          (fun i => i.user_id == u && i.venue_id == v) with
      | some i0 =>
          rw [express_off_eq env ag st u v now user venue i0 hu0 hv0 hf] at h
          split at h <;> simp only [ToggleResult.ok.injEq] at h <;>
            rw [← h.2]
          · right; left; rfl
          · left; rfl
      | none =>
          rw [express_on_eq env ag st u v now user venue hu0 hv0 hf] at h
          cases hag : ag v venue.name
              (((st.interests ++ [(⟨u, v, now⟩ : Interest)]).filter
                (fun i => i.venue_id == v)).map (fun i => i.user_id)).length
              (((st.interests ++ [(⟨u, v, now⟩ : Interest)]).filter
                (fun i => i.venue_id == v)).map (fun i => i.user_id))
              st.bookings with
          | error e =>
              rw [hag] at h
              simp only [ToggleResult.ok.injEq] at h
              left
              rw [← h.2]
          | ok ar =>
              rw [hag] at h
              cases ar with
              | notTriggered =>
                  simp only [ToggleResult.ok.injEq] at h
                  left
                  rw [← h.2]
              | bookingExists a m c =>
                  simp only [ToggleResult.ok.injEq] at h
                  left
                  rw [← h.2]
              | created a bid m code us cat =>
                  simp only [ToggleResult.ok.injEq] at h
                  right; right
                  exact ⟨⟨bid, v, us, code, cat, "active"⟩, rfl,
                    by rw [← h.2]⟩

/-- C10: bookings are immutable once created, except for the status field
which only moves from "active" to "cancelled"; no record is ever removed.
Consequently `user_ids` is a snapshot: after a toggle-off that leaves the
count at or above 3, `GET /bookings/{user}` still lists the active booking
for the user who toggled off. -/
theorem booking_records_frame :
    (∀ (env : Env) (ag : AgentFun) (st : ServerState) (u v : String)
       (now : Nat) (r : InterestResponse) (st' : ServerState),
      express_interest env ag st u v now = ToggleResult.ok r st' →
      st.bookings.length ≤ st'.bookings.length ∧
      ∀ (i : Nat) (hi : i < st.bookings.length)
        (hi' : i < st'.bookings.length),
        frameR (st.bookings.get ⟨i, hi⟩) (st'.bookings.get ⟨i, hi'⟩)) ∧
    (∀ (env : Env) (ag : AgentFun) (st : ServerState) (u v : String)
       (now : Nat) (user : User) (venue : Venue) (i0 : Interest)
       (b : Booking) (venueB : Venue)
       (r : InterestResponse) (st' : ServerState),
      env.users.lookup u = some user →
      env.venues.lookup v = some venue →
      st.interests.find?
        (fun i => i.user_id == u && i.venue_id == v) = some i0 →
      3 ≤ get_interested_count
        (st.interests.eraseP
          (fun i => i.user_id == u && i.venue_id == v)) v →
      express_interest env ag st u v now = ToggleResult.ok r st' →
      b ∈ st.bookings → b.status = "active" →
      b.user_ids.contains u = true →
      env.venues.lookup b.venue_id = some venueB →
      st'.bookings = st.bookings ∧
      ∃ entries, get_user_bookings env st' u = some entries ∧
        ∃ e ∈ entries, e.id = b.id ∧
          e.reservation_code = b.reservation_code ∧
          e.venue = venueB ∧ e.party_size = b.user_ids.length) := by
  constructor
  · intro env ag st u v now r st' h
    rcases express_any_bookings h with hb | hb | ⟨b, _, hb⟩
    · refine ⟨by rw [hb], ?_⟩
      intro i hi hi'
      rw [List.get_of_eq hb]
      exact frameR_refl _
    · refine ⟨by rw [hb, cancelFirstActive_length], ?_⟩
      intro i hi hi'
      rw [List.get_of_eq hb]
      exact cancelFirstActive_get v st.bookings i hi _
    · refine ⟨by rw [hb]; simp, ?_⟩
      intro i hi hi'
      rw [List.get_of_eq hb]
      have hget : (st.bookings ++ [b]).get ⟨i, by simp; omega⟩ =
          st.bookings.get ⟨i, hi⟩ := by
        simp only [List.get_eq_getElem]
        exact List.getElem_append_left hi
      rw [hget]
      exact frameR_refl _
  · intro env ag st u v now user venue i0 b venueB r st'
      hu hv hyes hge h hbmem hbact hbcont hvb
    rw [express_off_eq env ag st u v now user venue i0 hu hv hyes] at h
    split at h
    · rename_i hcond
      exfalso
      simp only [Bool.and_eq_true, decide_eq_true_eq] at hcond
      omega
    · simp only [ToggleResult.ok.injEq] at h
      obtain ⟨hr, hst⟩ := h
      subst hst
      refine ⟨rfl, ?_⟩
      refine ⟨_, by unfold get_user_bookings; rw [hu]; rfl, ?_⟩
      refine ⟨⟨b.id, venueB, b.reservation_code, b.created_at,
        b.user_ids.length⟩, ?_, rfl, rfl, rfl, rfl⟩
      rw [List.mem_filterMap]
      refine ⟨b, hbmem, ?_⟩
      have hmem2 : u ∈ b.user_ids := by simpa using hbcont
      rw [if_pos (by simp [hbact, hmem2]), hvb]
      rfl

/-- Witness for C10: u1 toggles off while the count stays at 3; the
registry is unchanged and u1 still appears in the active booking. -/
theorem booking_records_frame_witness :
    express_interest envW (realAgent 7 "t")
        ⟨[⟨"u1", "v1", 0⟩, ⟨"u2", "v1", 1⟩, ⟨"u3", "v1", 2⟩,
          ⟨"u4", "v1", 3⟩],
         [⟨"booking_1", "v1", ["u1", "u2", "u3"], "LUNA-v1-3", "tc",
           "active"⟩]⟩ "u1" "v1" 20 =
      ToggleResult.ok
        ⟨true, false, "Interest removed for Cafe X", none, some false⟩
        ⟨[⟨"u2", "v1", 1⟩, ⟨"u3", "v1", 2⟩, ⟨"u4", "v1", 3⟩],
         [⟨"booking_1", "v1", ["u1", "u2", "u3"], "LUNA-v1-3", "tc",
           "active"⟩]⟩ ∧
    (⟨[⟨"u2", "v1", 1⟩, ⟨"u3", "v1", 2⟩, ⟨"u4", "v1", 3⟩],
      [⟨"booking_1", "v1", ["u1", "u2", "u3"], "LUNA-v1-3", "tc",
        "active"⟩]⟩ : ServerState).bookings =
      (⟨[⟨"u1", "v1", 0⟩, ⟨"u2", "v1", 1⟩, ⟨"u3", "v1", 2⟩,
         ⟨"u4", "v1", 3⟩],
        [⟨"booking_1", "v1", ["u1", "u2", "u3"], "LUNA-v1-3", "tc",
          "active"⟩]⟩ : ServerState).bookings ∧
    ∃ entries, get_user_bookings envW
        ⟨[⟨"u2", "v1", 1⟩, ⟨"u3", "v1", 2⟩, ⟨"u4", "v1", 3⟩],
         [⟨"booking_1", "v1", ["u1", "u2", "u3"], "LUNA-v1-3", "tc",
           "active"⟩]⟩ "u1" = some entries ∧
      ∃ e ∈ entries, e.id = "booking_1" ∧
        e.reservation_code = "LUNA-v1-3" ∧ e.venue = vW1 ∧
        e.party_size = (["u1", "u2", "u3"] : List String).length := by
  have h : express_interest envW (realAgent 7 "t")
      ⟨[⟨"u1", "v1", 0⟩, ⟨"u2", "v1", 1⟩, ⟨"u3", "v1", 2⟩,
        ⟨"u4", "v1", 3⟩],
       [⟨"booking_1", "v1", ["u1", "u2", "u3"], "LUNA-v1-3", "tc",
         "active"⟩]⟩ "u1" "v1" 20 =
    ToggleResult.ok
      ⟨true, false, "Interest removed for Cafe X", none, some false⟩
      ⟨[⟨"u2", "v1", 1⟩, ⟨"u3", "v1", 2⟩, ⟨"u4", "v1", 3⟩],
       [⟨"booking_1", "v1", ["u1", "u2", "u3"], "LUNA-v1-3", "tc",
         "active"⟩]⟩ := by decide
  have hsnap := booking_records_frame.2 envW (realAgent 7 "t")
    ⟨[⟨"u1", "v1", 0⟩, ⟨"u2", "v1", 1⟩, ⟨"u3", "v1", 2⟩, ⟨"u4", "v1", 3⟩],
     [⟨"booking_1", "v1", ["u1", "u2", "u3"], "LUNA-v1-3", "tc", "active"⟩]⟩
    "u1" "v1" 20 uW1 vW1 ⟨"u1", "v1", 0⟩
    ⟨"booking_1", "v1", ["u1", "u2", "u3"], "LUNA-v1-3", "tc", "active"⟩
    vW1 ⟨true, false, "Interest removed for Cafe X", none, some false⟩
    ⟨[⟨"u2", "v1", 1⟩, ⟨"u3", "v1", 2⟩, ⟨"u4", "v1", 3⟩],
     [⟨"booking_1", "v1", ["u1", "u2", "u3"], "LUNA-v1-3", "tc", "active"⟩]⟩
    (by decide) (by decide) (by decide) (by decide) h (by decide) (by decide)
    (by decide) (by decide)
  exact ⟨h, hsnap.1, hsnap.2⟩

lemma ordIns_perm {α : Type} (le : α → α → Bool) (a : α) :
    ∀ l : List α, (ordIns le a l).Perm (a :: l) := by
  intro l
  induction l with
  | nil => exact List.Perm.refl _
  | cons b t ih =>
      unfold ordIns
      split
      · exact List.Perm.refl _
      · exact List.Perm.trans (List.Perm.cons b ih) (List.Perm.swap a b t)

lemma insSort_perm {α : Type} (le : α → α → Bool) :
    ∀ l : List α, (insSort le l).Perm l := by
  intro l
  induction l with
  | nil => exact List.Perm.refl _
  | cons a t ih =>
      unfold insSort
      exact List.Perm.trans (ordIns_perm le a (insSort le t))
        (List.Perm.cons a ih)

lemma mem_ordIns {α : Type} {le : α → α → Bool} {a x : α} {l : List α} :
    x ∈ ordIns le a l ↔ x = a ∨ x ∈ l := by
  rw [(ordIns_perm le a l).mem_iff, List.mem_cons]

lemma ordIns_sorted_score (a : Recommendation) :
    ∀ l : List Recommendation,
      l.Pairwise (fun x y => y.score ≤ x.score) →
      (ordIns scoreLe a l).Pairwise (fun x y => y.score ≤ x.score) := by
  intro l
  induction l with
  | nil => intro; simp [ordIns]
  | cons b t ih =>
      intro h
      rw [List.pairwise_cons] at h
      obtain ⟨hb, ht⟩ := h
      unfold ordIns
      by_cases hab : scoreLe a b = true
      · rw [if_pos hab]
        unfold scoreLe at hab
        rw [decide_eq_true_eq] at hab
        rw [List.pairwise_cons]
        refine ⟨?_, ?_⟩
        · intro x hx
          rcases List.mem_cons.mp hx with rfl | hx
          · exact hab
          · exact le_trans (hb x hx) hab
        · rw [List.pairwise_cons]
          exact ⟨hb, ht⟩
      · rw [if_neg hab]
        unfold scoreLe at hab
        rw [decide_eq_true_eq] at hab
        push_neg at hab
        rw [List.pairwise_cons]
        refine ⟨?_, ih ht⟩
        intro x hx
        rcases mem_ordIns.mp hx with rfl | hx
        · exact le_of_lt hab
        · exact hb x hx

lemma insSort_sorted_score :
    ∀ l : List Recommendation,
      (insSort scoreLe l).Pairwise (fun x y => y.score ≤ x.score) := by
  intro l
  induction l with
  | nil => simp [insSort]
  | cons a t ih =>
      unfold insSort
      exact ordIns_sorted_score a (insSort scoreLe t) ih

lemma filter_ordIns_score (q : Rat) (a : Recommendation) :
    ∀ l : List Recommendation,
      (ordIns scoreLe a l).filter (fun e => decide (e.score = q)) =
        if a.score = q then
          a :: l.filter (fun e => decide (e.score = q))
        else l.filter (fun e => decide (e.score = q)) := by
  intro l
  induction l with
  | nil =>
      unfold ordIns
      rw [List.filter_cons, List.filter_nil]
      split <;> simp_all
  | cons b t ih =>
      unfold ordIns
      by_cases hab : scoreLe a b = true
      · rw [if_pos hab, List.filter_cons, List.filter_cons]
        split <;> simp_all
      · rw [if_neg hab, List.filter_cons, ih, List.filter_cons]
        unfold scoreLe at hab
        rw [decide_eq_true_eq] at hab
        push_neg at hab
        by_cases ha : a.score = q
        · have hbq : ¬(b.score = q) := by
            intro hbq
            rw [hbq, ← ha] at hab
            exact absurd hab (not_lt.mpr (le_refl _))
          simp [ha, hbq]
        · simp [ha]

lemma filter_insSort_score (q : Rat) :
    ∀ l : List Recommendation,
      (insSort scoreLe l).filter (fun e => decide (e.score = q)) =
        l.filter (fun e => decide (e.score = q)) := by
  intro l
  induction l with
  | nil => rfl
  | cons a t ih =>
      unfold insSort
      rw [filter_ordIns_score, List.filter_cons]
      split <;> simp_all

lemma map_ordIns {α β : Type} (f : α → β) (le : α → α → Bool)
    (le' : β → β → Bool) (hf : ∀ a b, le a b = le' (f a) (f b)) (a : α) :
    ∀ l : List α, (ordIns le a l).map f = ordIns le' (f a) (l.map f) := by
  intro l
  induction l with
  | nil => rfl
  | cons b t ih =>
      simp only [ordIns, List.map_cons]
      rw [hf a b, apply_ite (List.map f)]
      by_cases h : le' (f a) (f b) = true
      · rw [if_pos h, if_pos h]
        simp
      · rw [if_neg h, if_neg h]
        simp only [List.map_cons]
        rw [ih]

lemma map_insSort {α β : Type} (f : α → β) (le : α → α → Bool)
    (le' : β → β → Bool) (hf : ∀ a b, le a b = le' (f a) (f b)) :
    ∀ l : List α, (insSort le l).map f = insSort le' (l.map f) := by
  intro l
  induction l with
  | nil => rfl
  | cons a t ih =>
      simp only [insSort, List.map_cons]
      rw [map_ordIns f le le' hf, ih]

lemma map_pair_congr {α β γ : Type} (g : α → β) (k : α → γ) :
    ∀ (l1 l2 : List α), l1.map g = l2.map g → l1.map k = l2.map k →
      l1.map (fun e => (g e, k e)) = l2.map (fun e => (g e, k e)) := by
  intro l1
  induction l1 with
  | nil =>
      intro l2 hg _
      cases l2 with
      | nil => rfl
      | cons b t => simp at hg
  | cons a t1 ih =>
      intro l2 hg hk
      cases l2 with
      | nil => simp at hg
      | cons b t2 =>
          simp only [List.map_cons, List.cons.injEq] at hg hk ⊢
          exact ⟨by rw [hg.1, hk.1], ih t2 hg.2 hk.2⟩

/-- C7: `GET /recommendations` returns one entry per venue (a permutation
of the per-venue entry list built in dictionary insertion order), sorted by
score descending; ties keep the insertion order (the entries at any given
score are exactly the insertion-order entries at that score); the
`already_interested` flag equals the caller's own-interest fact for the
entry's venue; and the sequence of venue ids in the output is a function
of the scores alone, so the flag cannot influence the ordering. -/
theorem get_recommendations_spec (env : Env) (interests : List Interest)
    (u : String) (user : User)
    (hu : env.users.lookup u = some user)
    (hids : ∀ p ∈ env.venues, (p.2).id = p.1) :
    ∃ recs, get_recommendations env interests u = some recs ∧
      recs.Perm (recEntries env interests u) ∧
      recs.Pairwise (fun a b => b.score ≤ a.score) ∧
      (∀ q : Rat, recs.filter (fun e => decide (e.score = q)) =
        (recEntries env interests u).filter (fun e => decide (e.score = q))) ∧
      (∀ e ∈ recs, e.already_interested = interests.any
        (fun i => i.user_id == u && i.venue_id == e.venue.id)) ∧
      (∀ (interests2 : List Interest) (recs2 : List Recommendation),
        get_recommendations env interests2 u = some recs2 →
        (recEntries env interests u).map (fun e => e.score) =
          (recEntries env interests2 u).map (fun e => e.score) →
        recs.map (fun e => e.venue.id) =
          recs2.map (fun e => e.venue.id)) := by
  have hrecs : get_recommendations env interests u =
      some (insSort scoreLe (recEntries env interests u)) := by
    unfold get_recommendations
    rw [hu]
    rfl
  refine ⟨_, hrecs, insSort_perm _ _, insSort_sorted_score _,
    fun q => filter_insSort_score q _, ?_, ?_⟩
  · intro e he
    have he' : e ∈ recEntries env interests u :=
      ((insSort_perm scoreLe _).mem_iff).mp he
    obtain ⟨p, hp, rfl⟩ := List.mem_map.mp he'
    have h2 : ((fun p : String × Venue =>
        let r := calculate_recommendation_score env interests u p.1
        let already_interested := interests.any
          (fun interest => interest.user_id == u && interest.venue_id == p.1)
        ({ venue := p.2, interested_count := r.2.2.2, score := round1 r.1,
           reason := r.2.1, already_interested := already_interested,
           friends_interested := r.2.2.1,
           total_interested := r.2.2.2 } : Recommendation)) p).venue.id
        = p.1 := by
      show p.2.id = p.1
      exact hids p hp
    rw [h2]
  · intro interests2 recs2 h2 hscores
    have hrecs2 : insSort scoreLe (recEntries env interests2 u) = recs2 := by
      unfold get_recommendations at h2
      rw [hu] at h2
      simpa using h2
    subst hrecs2
    have hf : ∀ a b : Recommendation, scoreLe a b =
        (fun x y : Rat × String => decide (y.1 ≤ x.1))
          ((fun e : Recommendation => (e.score, e.venue.id)) a)
          ((fun e : Recommendation => (e.score, e.venue.id)) b) :=
      fun a b => rfl
    have hidmap : ∀ I : List Interest,
        (recEntries env I u).map (fun e => e.venue.id) =
          env.venues.map (fun p => p.2.id) := by
      intro I
      unfold recEntries
      rw [List.map_map]
      rfl
    have hmapf : (recEntries env interests u).map
        (fun e : Recommendation => (e.score, e.venue.id)) =
        (recEntries env interests2 u).map
          (fun e : Recommendation => (e.score, e.venue.id)) :=
      map_pair_congr (fun e : Recommendation => e.score)
        (fun e : Recommendation => e.venue.id) _ _ hscores
        (by rw [hidmap, hidmap])
    have key : ∀ I : List Interest,
        (insSort scoreLe (recEntries env I u)).map (fun e => e.venue.id) =
          (insSort (fun x y : Rat × String => decide (y.1 ≤ x.1))
            ((recEntries env I u).map
              (fun e : Recommendation => (e.score, e.venue.id)))).map
            Prod.snd := by
      intro I
      rw [← map_insSort (fun e : Recommendation => (e.score, e.venue.id))
        scoreLe (fun x y : Rat × String => decide (y.1 ≤ x.1)) hf,
        List.map_map]
      rfl
    rw [key interests, key interests2, hmapf]

/-- Witness for C7 on a two-venue directory. -/
theorem get_recommendations_spec_witness :
    envW2.users.lookup "u1" = some uW1 ∧
    (∀ p ∈ envW2.venues, (p.2).id = p.1) ∧
    ∃ recs, get_recommendations envW2 [⟨"u2", "v1", 5⟩] "u1" = some recs ∧
      recs.Perm (recEntries envW2 [⟨"u2", "v1", 5⟩] "u1") ∧
      (∀ e ∈ recs, e.already_interested = ([⟨"u2", "v1", 5⟩] :
        List Interest).any
          (fun i => i.user_id == "u1" && i.venue_id == e.venue.id)) := by
  refine ⟨rfl, by decide, ?_⟩
  obtain ⟨recs, h1, h2, _, _, h5, _⟩ := get_recommendations_spec envW2
    [⟨"u2", "v1", 5⟩] "u1" uW1 rfl (by decide)
  exact ⟨recs, h1, h2, h5⟩
